import Mathlib

/-!
QKart backend: cart service and auth verifier

A shallow embedding of `src/services/cart.service.js` and of `jwtVerify` in
`src/config/passport.js`.

Modelling conventions.

* The document store is an explicit value `Store` that every operation receives
  and returns.  A collection is a list of documents in natural order;
  `findOne` / `findById` return the first matching document.
* Every asynchronous store call may fail.  The outcome of each call site is an
  input of the model (`Faults`): `none` means the call goes through,
  `some msg` means the driver rejects with an error carrying message `msg`.
* A thrown value is either an `ApiError` (status code and message) or the raw
  error of the store driver, which has no `statusCode` field.
* Ids are strings in canonical form, so `_id.equals(productId)` and
  `_id.toString() === productId` are both equality of strings.
* Amounts (cost, quantity, wallet balance) are JavaScript numbers holding
  integers.  The arithmetic of `checkout` is that of doubles: the result of
  `*`, `+` and `-` is the exact result rounded to the nearest number with a
  53-bit significand, ties to even (`Number.round`), and `<` is exact.  Results
  are exact up to `MAX_SAFE_INTEGER`.  Overflow to `Infinity` (magnitude
  2^1024 and above) is outside the model.
-/

namespace QKart

/-! ## Data model -/

/-- Modelled from the spec: the product model is not part of the sources; a
product has an identity, descriptive fields and a unit cost.  The service reads
`product._id` and `product.cost`. -/
structure Product where
  _id : String
  name : String
  cost : Int
deriving DecidableEq, Repr

/-- Modelled from the spec: a line item of a cart, the embedded snapshot of a
product and a quantity, as pushed at line 88 (`{ product, quantity }`). -/
structure CartItem where
  product : Product
  quantity : Int
deriving DecidableEq, Repr

/-- Modelled from the spec: the cart model is not part of the sources; a cart is
keyed by the email of its owner and holds an ordered list of line items.  The
service reads `cart.email` and `cart.cartItems`. -/
structure Cart where
  email : String
  cartItems : List CartItem
deriving DecidableEq, Repr

/-- Modelled from the spec: the user model is not part of the sources; a user
has an identity, an email, a shipping address and a wallet balance.  The
services read `user.email`, `user.address` and `user.walletMoney`. -/
structure User where
  _id : String
  email : String
  address : String
  walletMoney : Int
deriving DecidableEq, Repr

/-- The three collections of the document store. -/
structure Store where
  carts : List Cart
  products : List Product
  users : List User
deriving DecidableEq, Repr

/-- Outcome of one store call: `none` when it goes through, `some msg` when the
driver rejects with an error whose message is `msg`. -/
abbrev Fault := Option String

/-- Outcome of every store call site of the services. -/
structure Faults where
  cartFindOne : Fault
  cartCreate : Fault
  productFindById : Fault
  cartSave : Fault
  userSave : Fault
  userFindById : Fault
deriving DecidableEq, Repr

/-- The store in which no call fails. -/
def noFaults : Faults :=
  { cartFindOne := none, cartCreate := none, productFindById := none,
    cartSave := none, userSave := none, userFindById := none }

/-- A thrown value: an `ApiError(statusCode, message)` (the class itself is not
part of the sources; the catch block of `addProductToCart` reads its
`statusCode` and `message`), or the raw error of the store driver. -/
inductive Thrown where
  | ApiError (statusCode : Nat) (message : String)
  | storeError (message : String)
deriving DecidableEq, Repr

/-- Field `error.statusCode`; undefined on a raw store error. -/
def Thrown.statusCode : Thrown → Option Nat
  | .ApiError s _ => some s
  | .storeError _ => none

/-- Field `error.message`. -/
def Thrown.message : Thrown → String
  | .ApiError _ m => m
  | .storeError m => m

/-- Error kinds of the service boundary. -/
inductive ErrorKind where
  | NotFound
  | BadRequest
  | Internal
deriving DecidableEq, Repr

namespace httpStatus

def NOT_FOUND : Nat := 404
def BAD_REQUEST : Nat := 400
def INTERNAL_SERVER_ERROR : Nat := 500

end httpStatus

/-- Kind of a thrown value: the kind of the status code of an `ApiError`, and
no kind for anything else. -/
def Thrown.kind : Thrown → Option ErrorKind
  | .ApiError s _ =>
    if s = httpStatus.NOT_FOUND then some .NotFound
    else if s = httpStatus.BAD_REQUEST then some .BadRequest
    else if s = httpStatus.INTERNAL_SERVER_ERROR then some .Internal
    else none
  | .storeError _ => none

/-! ## Numbers -/

/-- The constant `Number.MAX_SAFE_INTEGER`, 2^53 - 1. -/
def MAX_SAFE_INTEGER : Nat := 9007199254740991

/-- Number of halvings that bring a magnitude below 2^53: the exponent of the
unit in the last place of the double nearest to it. -/
def excessBits : Nat → Nat → Nat
  | 0, _ => 0
  | fuel + 1, m => if m < 2 ^ 53 then 0 else excessBits fuel (m / 2) + 1

/-- Rounds a magnitude to the nearest multiple of its unit in the last place,
ties to the even significand. -/
def roundMagnitude (m : Nat) : Nat :=
  let e := excessBits m m
  let q := m / 2 ^ e
  let r := m % 2 ^ e
  if 2 * r < 2 ^ e then q * 2 ^ e
  else if 2 ^ e < 2 * r then (q + 1) * 2 ^ e
  else if q % 2 = 0 then q * 2 ^ e
  else (q + 1) * 2 ^ e

/-- The double nearest to an integer (round to nearest, ties to even). -/
def Number.round (n : Int) : Int :=
  if 0 ≤ n then (roundMagnitude n.toNat : Int) else -(roundMagnitude (-n).toNat : Int)

/-- The operator `*` on numbers. -/
def Number.mul (a b : Int) : Int := Number.round (a * b)

/-- The operator `+` on numbers. -/
def Number.add (a b : Int) : Int := Number.round (a + b)

/-- The operator `-` on numbers. -/
def Number.sub (a b : Int) : Int := Number.round (a - b)

/-! ## Store adapters -/

/-- Replaces the first element satisfying `p` by `new`; the list is unchanged
when there is none. -/
def replaceFirst {α : Type} (p : α → Bool) (new : α) : List α → List α
  | [] => []
  | x :: xs => if p x then new :: xs else x :: replaceFirst p new xs

/-- The persisted cart of `email`: the first cart document with that email. -/
def storedCart (st : Store) (email : String) : Option Cart :=
  st.carts.find? (fun c => c.email == email)

/-- The persisted user document with the given id. -/
def storedUser (st : Store) (id : String) : Option User :=
  st.users.find? (fun u => u._id == id)

/-- Embeds `Cart.findOne({ email })`. -/
def Cart.findOne (flt : Faults) (st : Store) (email : String) : Except Thrown (Option Cart) :=
  match flt.cartFindOne with
  | some m => .error (.storeError m)
  | none => .ok (storedCart st email)

/-- Embeds `Cart.create(doc)`: inserts the document at the end of the collection. -/
def Cart.create (flt : Faults) (st : Store) (doc : Cart) : Except Thrown (Store × Cart) :=
  match flt.cartCreate with
  | some m => .error (.storeError m)
  | none => .ok ({ st with carts := st.carts ++ [doc] }, doc)

/-- Embeds `cart.save()`: writes the in-memory cart over its stored document, which is
the one `Cart.findOne` returns for its email. -/
def Cart.save (flt : Faults) (st : Store) (cart : Cart) : Except Thrown Store :=
  match flt.cartSave with
  | some m => .error (.storeError m)
  | none =>
    .ok { st with carts := replaceFirst (fun c => c.email == cart.email) cart st.carts }

/-- The product document with the given id. -/
def storedProduct (st : Store) (productId : String) : Option Product :=
  st.products.find? (fun p => p._id == productId)

/-- Embeds `Product.findById(productId)`. -/
def Product.findById (flt : Faults) (st : Store) (productId : String) :
    Except Thrown (Option Product) :=
  match flt.productFindById with
  | some m => .error (.storeError m)
  | none => .ok (storedProduct st productId)

/-- Embeds `User.findById(id)`. -/
def User.findById (flt : Faults) (st : Store) (id : String) : Except Thrown (Option User) :=
  match flt.userFindById with
  | some m => .error (.storeError m)
  | none => .ok (storedUser st id)

/-- Embeds `user.save()`: writes the in-memory user over its stored document. -/
def User.save (flt : Faults) (st : Store) (user : User) : Except Thrown Store :=
  match flt.userSave with
  | some m => .error (.storeError m)
  | none =>
    .ok { st with users := replaceFirst (fun u => u._id == user._id) user st.users }

/-- Modelled from the spec: `user.hasSetNonDefaultAddress()` of the user model,
which is not part of the sources; the user has a shipping address other than
the default/unset sentinel `default_address` of the configuration. -/
def User.hasSetNonDefaultAddress (default_address : String) (user : User) : Bool :=
  user.address != default_address

/-! ## Cart service -/

/-- Embeds `getCartByUser(user)`, lines 21-27. -/
def getCartByUser (flt : Faults) (st : Store) (user : User) : Except Thrown Cart :=
  match Cart.findOne flt st user.email with
  | .error e => .error e
  | .ok none => .error (.ApiError httpStatus.NOT_FOUND "User does not have a cart")
  | .ok (some cart) => .ok cart

/-- The `try` block of `addProductToCart`, lines 55-92. -/
def addProductToCart.tryBlock (flt : Faults) (st : Store) (user : User) (productId : String)
    (quantity : Int) : Store × Except Thrown Cart :=
  match Cart.findOne flt st user.email with
  | .error e => (st, .error e)
  | .ok found =>
    let created : Store × Except Thrown Cart :=
      match found with
      | some userCart => (st, .ok userCart)
      | none =>
        match Cart.create flt st { email := user.email, cartItems := [] } with
        | .error _ =>
          (st, .error (.ApiError httpStatus.INTERNAL_SERVER_ERROR
            "Something went wrong while creating cart"))
        | .ok (st1, userCart) => (st1, .ok userCart)
    match created with
    | (st1, .error e) => (st1, .error e)
    | (st1, .ok userCart) =>
      let alreadyExists := userCart.cartItems.any (fun item => item.product._id == productId)
      if alreadyExists then
        (st1, .error (.ApiError httpStatus.BAD_REQUEST
          "Product already in cart. Use the cart sidebar to update or remove product from cart"))
      else
        match Product.findById flt st1 productId with
        | .error e => (st1, .error e)
        | .ok none =>
          (st1, .error (.ApiError httpStatus.BAD_REQUEST "Product doesn't exist in database "))
        | .ok (some product) =>
          let userCart1 : Cart :=
            { userCart with
              cartItems := userCart.cartItems ++ [{ product := product, quantity := quantity }] }
          match Cart.save flt st1 userCart1 with
          | .error e => (st1, .error e)
          | .ok st2 => (st2, .ok userCart1)

/-- The `catch` block of `addProductToCart`, lines 93-98: rethrows an `ApiError`
built from `error.statusCode || 500` and `error.message || "..."`. -/
def addProductToCart.catchBlock (error : Thrown) : Thrown :=
  .ApiError
    (match error.statusCode with
      | some s => if s = 0 then httpStatus.INTERNAL_SERVER_ERROR else s
      | none => httpStatus.INTERNAL_SERVER_ERROR)
    (if error.message = "" then "An error occurred while adding the product to the cart"
      else error.message)

/-- Embeds `addProductToCart(user, productId, quantity)`, lines 53-99. -/
def addProductToCart (flt : Faults) (st : Store) (user : User) (productId : String)
    (quantity : Int) : Store × Except Thrown Cart :=
  match addProductToCart.tryBlock flt st user productId quantity with
  | (st1, .error error) => (st1, .error (addProductToCart.catchBlock error))
  | (st1, .ok userCart) => (st1, .ok userCart)

/-- Embeds `updateProductInCart(user, productId, quantity)`, lines 125-156. -/
def updateProductInCart (flt : Faults) (st : Store) (user : User) (productId : String)
    (quantity : Int) : Store × Except Thrown Cart :=
  match Cart.findOne flt st user.email with
  | .error e => (st, .error e)
  | .ok none =>
    (st, .error (.ApiError httpStatus.BAD_REQUEST
      "User does not have a cart. Use POST to create cart and add a product"))
  | .ok (some userCart) =>
    match Product.findById flt st productId with
    | .error e => (st, .error e)
    | .ok none =>
      (st, .error (.ApiError httpStatus.BAD_REQUEST "Product doesn't exist in database"))
    | .ok (some _) =>
      match userCart.cartItems.findIdx? (fun item => item.product._id == productId) with
      | none => (st, .error (.ApiError httpStatus.BAD_REQUEST "Product not in cart"))
      | some itemIndex =>
        let userCart1 : Cart :=
          { userCart with
            cartItems :=
              userCart.cartItems.modify (fun item => { item with quantity := quantity })
                itemIndex }
        match Cart.save flt st userCart1 with
        | .error e => (st, .error e)
        | .ok st1 => (st1, .ok userCart1)

/-- Embeds `deleteProductFromCart(user, productId)`, lines 175-195. -/
def deleteProductFromCart (flt : Faults) (st : Store) (user : User) (productId : String) :
    Store × Except Thrown Cart :=
  match Cart.findOne flt st user.email with
  | .error e => (st, .error e)
  | .ok none =>
    (st, .error (.ApiError httpStatus.BAD_REQUEST "User does not have a cart"))
  | .ok (some cart) =>
    match cart.cartItems.findIdx? (fun item => item.product._id == productId) with
    | none => (st, .error (.ApiError httpStatus.BAD_REQUEST "Product not in cart"))
    | some itemIndex =>
      let cart1 : Cart := { cart with cartItems := cart.cartItems.eraseIdx itemIndex }
      match Cart.save flt st cart1 with
      | .error e => (st, .error e)
      | .ok st1 => (st1, .ok cart1)

/-- The reduction of lines 215-217: starting from 0, each item adds its cost
times its quantity, both operations in double arithmetic. -/
def totalCost (cartItems : List CartItem) : Int :=
  cartItems.foldl (fun prevValue currentItem =>
    Number.add prevValue (Number.mul currentItem.product.cost currentItem.quantity)) 0

/-- Result of `checkout`: the store, the in-memory user entity (which line 223
mutates) and the value returned or thrown. -/
structure CheckoutResult where
  store : Store
  user : User
  result : Except Thrown Unit

/-- Embeds `checkout(user)`, lines 197-229. -/
def checkout (default_address : String) (flt : Faults) (st : Store) (user : User) :
    CheckoutResult :=
  match Cart.findOne flt st user.email with
  | .error e => ⟨st, user, .error e⟩
  | .ok none =>
    ⟨st, user, .error (.ApiError httpStatus.NOT_FOUND "User does not have a cart")⟩
  | .ok (some cart) =>
    if cart.cartItems.length = 0 then
      ⟨st, user, .error (.ApiError httpStatus.BAD_REQUEST "User does not have Products in Cart")⟩
    else if !(user.hasSetNonDefaultAddress default_address) then
      ⟨st, user, .error (.ApiError httpStatus.BAD_REQUEST "User does not set the address")⟩
    else
      let total := totalCost cart.cartItems
      if user.walletMoney < total then
        ⟨st, user, .error (.ApiError httpStatus.BAD_REQUEST "User balance is insufficient ")⟩
      else
        let user1 : User := { user with walletMoney := Number.sub user.walletMoney total }
        match User.save flt st user1 with
        | .error e => ⟨st, user1, .error e⟩
        | .ok st1 =>
          let cart1 : Cart := { cart with cartItems := [] }
          match Cart.save flt st1 cart1 with
          | .error e => ⟨st1, user1, .error e⟩
          | .ok st2 => ⟨st2, user1, .ok ()⟩

/-! ## Auth verifier -/

/-- Decoded token payload. -/
structure Payload where
  sub : String
  type : String
  exp : Int
deriving DecidableEq, Repr

/-- Arguments with which `jwtVerify` calls `done(err, user)`: `err` is `none`
for `null`, and `user` is `none` for `false`. -/
structure Done where
  err : Option String
  user : Option User
deriving DecidableEq, Repr

/-- Embeds `getUserById(id)` of the user service. -/
def getUserById (flt : Faults) (st : Store) (id : String) : Except Thrown (Option User) :=
  User.findById flt st id

/-- Embeds `jwtVerify(payload, done)`; `ACCESS` is `tokenTypes.ACCESS` and `now` is
`Math.floor(Date.now() / 1000)`. -/
def jwtVerify (ACCESS : String) (now : Int) (flt : Faults) (st : Store) (payload : Payload) :
    Done :=
  if payload.type != ACCESS then
    ⟨some "Invalid token type", none⟩
  else if now > payload.exp then
    ⟨some "token expired please login", none⟩
  else
    match getUserById flt st payload.sub with
    | .error err => ⟨some err.message, none⟩
    | .ok (some user) => ⟨none, some user⟩
    | .ok none => ⟨none, none⟩

/-! ## Example data -/

/-- Configuration value used in the examples for the unset address. -/
def exDefaultAddress : String := "ADDRESS_NOT_SET"

def exProductA : Product := { _id := "p1", name := "tan leatherette weekender duffle", cost := 10 }
def exProductB : Product := { _id := "p2", name := "thinking cap", cost := 5 }
def exProductC : Product := { _id := "p3", name := "desk lamp", cost := 7 }

def exUser : User :=
  { _id := "u1", email := "crio-user@gmail.com", address := "12 Main Road, Bengaluru",
    walletMoney := 100 }

def exCart : Cart :=
  { email := "crio-user@gmail.com",
    cartItems := [{ product := exProductA, quantity := 2 }, { product := exProductB, quantity := 1 }] }

def exStore : Store :=
  { carts := [exCart], products := [exProductA, exProductB, exProductC], users := [exUser] }

def exPencil : Product := { _id := "p4", name := "pencil", cost := 1 }

/-- A cart with one item of cost 1 and quantity 1. -/
def exPencilCart : Cart :=
  { email := "crio-user@gmail.com", cartItems := [{ product := exPencil, quantity := 1 }] }

/-- A user whose wallet balance is 2^53 + 2, a double above the safe integers. -/
def exLargeUser : User := { exUser with walletMoney := 9007199254740994 }

def exLargeStore : Store :=
  { carts := [exPencilCart], products := [exPencil], users := [exLargeUser] }

/-- A product whose cost is 2^53 - 1. -/
def exMainframe : Product := { _id := "p5", name := "mainframe", cost := 9007199254740991 }

/-- A cart with three mainframes: the exact total is 27021597764222973. -/
def exMainframeCart : Cart :=
  { email := "crio-user@gmail.com", cartItems := [{ product := exMainframe, quantity := 3 }] }

/-- A user whose wallet balance is one below the exact total of `exMainframeCart`. -/
def exShortUser : User := { exUser with walletMoney := 27021597764222972 }

def exMainframeStore : Store :=
  { carts := [exMainframeCart], products := [exMainframe], users := [exShortUser] }

def exFaultOnCartSave : Faults := { noFaults with cartSave := some "write failed" }

def exFaultOnRead : Faults := { noFaults with cartFindOne := some "connection lost" }

def exFaultOnProductLookup : Faults := { noFaults with productFindById := some "timed out" }

/-! ## Properties under study -/

/-- The cart invariant: at most one item per distinct product id. -/
def CartInvariant (cart : Cart) : Prop :=
  (cart.cartItems.map (fun item => item.product._id)).Nodup

/-- A result whose failure, if any, is of one of the kinds NotFound, BadRequest
or Internal. -/
def FailsWithKnownKind {α : Type} (result : Except Thrown α) : Prop :=
  ∀ e, result = .error e →
    e.kind = some ErrorKind.NotFound ∨ e.kind = some ErrorKind.BadRequest
      ∨ e.kind = some ErrorKind.Internal

/-- The exact debit of `checkout`: for a stored user with an address set and a
cart with at least one item, if the wallet balance is at least the total (the
sum over the items of cost times quantity), `checkout` succeeds, the persisted
wallet balance is the old balance minus the total and the persisted cart is
empty. -/
def CheckoutDebitsTotal (default_address : String) (st : Store) (user : User) (cart : Cart) :
    Prop :=
  storedUser st user._id = some user →
  storedCart st user.email = some cart →
  cart.cartItems ≠ [] →
  user.hasSetNonDefaultAddress default_address = true →
  (cart.cartItems.map (fun item => item.product.cost * item.quantity)).sum ≤ user.walletMoney →
    (checkout default_address noFaults st user).result = .ok ()
    ∧ storedUser (checkout default_address noFaults st user).store user._id
        = some { user with
            walletMoney := user.walletMoney
              - (cart.cartItems.map (fun item => item.product.cost * item.quantity)).sum }
    ∧ storedCart (checkout default_address noFaults st user).store user.email
        = some { cart with cartItems := [] }

/-- The failures of `checkout`: NotFound without a cart, and otherwise BadRequest
when the item list is empty, or no non-default address is set, or the wallet
balance is less than the total (the sum over the items of cost times
quantity); in each case the store and the in-memory user are unchanged. -/
def CheckoutRejects (default_address : String) (flt : Faults) (st : Store) (user : User) :
    Prop :=
  (storedCart st user.email = none →
    ∃ e, (checkout default_address flt st user).result = .error e
      ∧ e.kind = some ErrorKind.NotFound
      ∧ (checkout default_address flt st user).store = st
      ∧ (checkout default_address flt st user).user = user)
  ∧ (∀ cart, storedCart st user.email = some cart →
      (cart.cartItems = [] ∨ user.hasSetNonDefaultAddress default_address = false
        ∨ user.walletMoney
            < (cart.cartItems.map (fun item => item.product.cost * item.quantity)).sum) →
      ∃ e, (checkout default_address flt st user).result = .error e
        ∧ e.kind = some ErrorKind.BadRequest
        ∧ (checkout default_address flt st user).store = st
        ∧ (checkout default_address flt st user).user = user)

/-- Atomicity of `checkout` across its two writes: either it succeeds with the
wallet debit and the cart clearing both persisted, or it fails and neither the
persisted wallet balance nor the persisted cart item list has changed. -/
def CheckoutAtomic (default_address : String) (flt : Faults) (st : Store) (user : User) : Prop :=
  ((checkout default_address flt st user).result = .ok ()
    ∧ ∃ cart, storedCart st user.email = some cart
      ∧ storedUser (checkout default_address flt st user).store user._id
          = some { user with walletMoney := Number.sub user.walletMoney (totalCost cart.cartItems) }
      ∧ storedCart (checkout default_address flt st user).store user.email
          = some { cart with cartItems := [] })
  ∨ ((∃ e, (checkout default_address flt st user).result = .error e)
    ∧ (storedUser (checkout default_address flt st user).store user._id).map (fun u => u.walletMoney)
        = (storedUser st user._id).map (fun u => u.walletMoney)
    ∧ (storedCart (checkout default_address flt st user).store user.email).map
          (fun c => c.cartItems)
        = (storedCart st user.email).map (fun c => c.cartItems))

/-! ## Lemmas on the store adapters -/

theorem find?_replaceFirst {α : Type} (p : α → Bool) (new : α) :
    ∀ (l : List α) (x : α), l.find? p = some x → p new = true →
      (replaceFirst p new l).find? p = some new := by
  intro l
  induction l with
  | nil => intro x h; simp at h
  | cons y ys ih =>
    intro x h hp
    by_cases hy : p y = true
    · simp [replaceFirst, hy, hp]
    · simp only [Bool.not_eq_true] at hy
      simp only [List.find?_cons, hy] at h
      simp only [replaceFirst, hy, Bool.false_eq_true, if_false, List.find?_cons]
      exact ih x h hp

theorem excessBits_of_lt (fuel m : Nat) (h : m < 2 ^ 53) : excessBits fuel m = 0 := by
  cases fuel with
  | zero => rfl
  | succ f => simp only [excessBits, if_pos h]

theorem roundMagnitude_of_lt (m : Nat) (h : m < 2 ^ 53) : roundMagnitude m = m := by
  simp only [roundMagnitude, excessBits_of_lt m m h, pow_zero, Nat.div_one, Nat.mod_one,
    Nat.mul_zero, Nat.mul_one, Nat.lt_one_iff, if_true]

/-- Safe integers are doubles: rounding leaves them unchanged. -/
theorem Number.round_of_safe (n : Int) (h : n.natAbs ≤ MAX_SAFE_INTEGER) :
    Number.round n = n := by
  unfold MAX_SAFE_INTEGER at h
  unfold Number.round
  split
  · rw [roundMagnitude_of_lt _ (by omega)]; omega
  · rw [roundMagnitude_of_lt _ (by omega)]; omega

theorem totalCost_foldl_of_safe (l : List CartItem) (acc : Int)
    (h : acc.natAbs + (l.map (fun item => (item.product.cost * item.quantity).natAbs)).sum
      ≤ MAX_SAFE_INTEGER) :
    l.foldl (fun prevValue currentItem =>
      Number.add prevValue (Number.mul currentItem.product.cost currentItem.quantity)) acc
      = acc + (l.map (fun item => item.product.cost * item.quantity)).sum := by
  induction l generalizing acc with
  | nil => simp
  | cons x xs ih =>
    simp only [List.map_cons, List.sum_cons] at h
    have hp : (x.product.cost * x.quantity).natAbs ≤ MAX_SAFE_INTEGER := by omega
    have hs : (acc + x.product.cost * x.quantity).natAbs
        ≤ acc.natAbs + (x.product.cost * x.quantity).natAbs := Int.natAbs_add_le _ _
    have hstep : Number.add acc (Number.mul x.product.cost x.quantity)
        = acc + x.product.cost * x.quantity := by
      unfold Number.add Number.mul
      rw [Number.round_of_safe _ hp, Number.round_of_safe _ (by omega)]
    simp only [List.foldl_cons, List.map_cons, List.sum_cons, hstep]
    rw [ih _ (by omega)]
    omega

/-- The total is the exact sum of cost times quantity when the magnitudes of
the products add up to a safe integer. -/
theorem totalCost_eq_sum_of_safe (l : List CartItem)
    (h : (l.map (fun item => (item.product.cost * item.quantity).natAbs)).sum
      ≤ MAX_SAFE_INTEGER) :
    totalCost l = (l.map (fun item => item.product.cost * item.quantity)).sum := by
  unfold totalCost
  rw [totalCost_foldl_of_safe l 0 (by simpa using h)]
  omega

theorem userSave_of_fault (flt : Faults) (st : Store) (user : User) (m : String)
    (h : flt.userSave = some m) : User.save flt st user = .error (.storeError m) := by
  simp only [User.save, h]

theorem userSave_of_none (flt : Faults) (st : Store) (user : User)
    (h : flt.userSave = none) :
    User.save flt st user
      = .ok { st with users := replaceFirst (fun u => u._id == user._id) user st.users } := by
  simp only [User.save, h]

theorem cartSave_of_fault (flt : Faults) (st : Store) (cart : Cart) (m : String)
    (h : flt.cartSave = some m) : Cart.save flt st cart = .error (.storeError m) := by
  simp only [Cart.save, h]

theorem cartSave_of_none (flt : Faults) (st : Store) (cart : Cart)
    (h : flt.cartSave = none) :
    Cart.save flt st cart
      = .ok { st with carts := replaceFirst (fun c => c.email == cart.email) cart st.carts } := by
  simp only [Cart.save, h]

theorem storedCart_email {st : Store} {email : String} {cart : Cart}
    (h : storedCart st email = some cart) : cart.email = email := by
  have := List.find?_some h
  simpa using this

/-- What `checkout` does once the cart has been read: the checks of lines
204-221 and the two writes of lines 223-228. -/
theorem checkout_of_storedCart (default_address : String) (flt : Faults) (st : Store)
    (user : User) (cart : Cart) (hread : flt.cartFindOne = none)
    (hcart : storedCart st user.email = some cart) :
    checkout default_address flt st user =
      if cart.cartItems.length = 0 then
        ⟨st, user, .error (.ApiError httpStatus.BAD_REQUEST "User does not have Products in Cart")⟩
      else if !(user.hasSetNonDefaultAddress default_address) then
        ⟨st, user, .error (.ApiError httpStatus.BAD_REQUEST "User does not set the address")⟩
      else if user.walletMoney < totalCost cart.cartItems then
        ⟨st, user, .error (.ApiError httpStatus.BAD_REQUEST "User balance is insufficient ")⟩
      else
        match User.save flt st
            { user with walletMoney := Number.sub user.walletMoney (totalCost cart.cartItems) } with
        | .error e =>
          ⟨st, { user with walletMoney := Number.sub user.walletMoney (totalCost cart.cartItems) }, .error e⟩
        | .ok st1 =>
          match Cart.save flt st1 { cart with cartItems := [] } with
          | .error e =>
            ⟨st1, { user with walletMoney := Number.sub user.walletMoney (totalCost cart.cartItems) },
              .error e⟩
          | .ok st2 =>
            ⟨st2, { user with walletMoney := Number.sub user.walletMoney (totalCost cart.cartItems) },
              .ok ()⟩ := by
  simp only [checkout, Cart.findOne, hread, hcart]

/-- C1, refuted: with a wallet balance of 2^53 + 2 (a double) and one item of
cost 1 and quantity 1, `checkout` succeeds but the subtraction of line 223
rounds: the persisted balance is 2^53, not 2^53 + 1. -/
theorem checkout_debit_rounds :
    Number.round exLargeUser.walletMoney = exLargeUser.walletMoney
    ∧ ¬ CheckoutDebitsTotal exDefaultAddress exLargeStore exLargeUser exPencilCart := by
  refine ⟨by decide, ?_⟩
  intro h
  have hstored : storedUser (checkout exDefaultAddress noFaults exLargeStore exLargeUser).store
      exLargeUser._id = some { exLargeUser with walletMoney := 9007199254740992 } := by
    decide
  obtain ⟨-, hwallet, -⟩ := h (by decide) (by decide) (by decide) (by decide) (by decide)
  rw [hstored] at hwallet
  exact absurd hwallet (by decide)

/-- C1, amended: for a stored user with an address set whose cart exists and
has at least one item, when the amounts are safe integers (the magnitudes of
cost times quantity add up to at most `MAX_SAFE_INTEGER`, and so does the
balance minus the total), the wallet balance is at least the total (the sum
over the items of cost times quantity) and the store does not fail, `checkout`
succeeds, the persisted wallet balance is the old balance minus the total, and
the persisted cart has an empty item list. -/
theorem checkout_debits_wallet_and_empties_cart (default_address : String) (st : Store)
    (user : User) (cart : Cart)
    (huser : storedUser st user._id = some user)
    (hcart : storedCart st user.email = some cart)
    (hitems : cart.cartItems ≠ [])
    (haddr : user.hasSetNonDefaultAddress default_address = true)
    (hsafe : (cart.cartItems.map (fun item => (item.product.cost * item.quantity).natAbs)).sum
      ≤ MAX_SAFE_INTEGER)
    (hbal : (cart.cartItems.map (fun item => item.product.cost * item.quantity)).sum
      ≤ user.walletMoney)
    (hrest : user.walletMoney
      - (cart.cartItems.map (fun item => item.product.cost * item.quantity)).sum
      ≤ MAX_SAFE_INTEGER) :
    (checkout default_address noFaults st user).result = .ok ()
    ∧ storedUser (checkout default_address noFaults st user).store user._id
        = some { user with
            walletMoney := user.walletMoney
              - (cart.cartItems.map (fun item => item.product.cost * item.quantity)).sum }
    ∧ storedCart (checkout default_address noFaults st user).store user.email
        = some { cart with cartItems := [] } := by
  have hlen : ¬ cart.cartItems.length = 0 := by
    intro h; exact hitems (List.length_eq_zero.mp h)
  have htotal := totalCost_eq_sum_of_safe cart.cartItems hsafe
  have hbal1 : ¬ user.walletMoney < totalCost cart.cartItems := by
    rw [htotal]; omega
  have hsub : Number.sub user.walletMoney (totalCost cart.cartItems)
      = user.walletMoney
        - (cart.cartItems.map (fun item => item.product.cost * item.quantity)).sum := by
    unfold Number.sub
    rw [htotal]
    exact Number.round_of_safe _ (by omega)
  have hmail : cart.email = user.email := storedCart_email hcart
  rw [checkout_of_storedCart default_address noFaults st user cart rfl hcart]
  simp only [hlen, haddr, hbal1, if_false, Bool.not_true, Bool.false_eq_true]
  rw [hsub]
  have hu : storedUser
      { st with users := (replaceFirst (fun u => u._id == user._id)
        { user with
          walletMoney := user.walletMoney
            - (cart.cartItems.map (fun item => item.product.cost * item.quantity)).sum }
        st.users) }
      user._id
      = some { user with
          walletMoney := user.walletMoney
            - (cart.cartItems.map (fun item => item.product.cost * item.quantity)).sum } := by
    simp only [storedUser] at huser ⊢
    exact find?_replaceFirst _ _ st.users user huser (by simp)
  have hc : storedCart
      { st with carts := (replaceFirst (fun c => c.email == cart.email)
        { cart with cartItems := [] } st.carts) }
      user.email = some { cart with cartItems := [] } := by
    simp only [storedCart] at hcart ⊢
    rw [hmail]
    exact find?_replaceFirst _ _ st.carts cart hcart (by simp [hmail])
  simp only [User.save, Cart.save, noFaults]
  refine ⟨trivial, ?_, ?_⟩
  · simpa [storedUser] using hu
  · simpa [storedCart] using hc

/-- Example of the amended C1: items (cost 10, quantity 2) and (cost 5,
quantity 1) with a wallet of 100 give a wallet of 75 and an empty cart. -/
theorem checkout_debits_wallet_and_empties_cart_witness :
    (checkout exDefaultAddress noFaults exStore exUser).result = .ok ()
    ∧ storedUser (checkout exDefaultAddress noFaults exStore exUser).store exUser._id
        = some { exUser with walletMoney := 75 }
    ∧ storedCart (checkout exDefaultAddress noFaults exStore exUser).store exUser.email
        = some { exCart with cartItems := [] } :=
  checkout_debits_wallet_and_empties_cart exDefaultAddress exStore exUser exCart
    (by decide) (by decide) (by decide) (by decide) (by decide) (by decide) (by decide)

/-- C2, refuted: with three items of cost 2^53 - 1 the total of lines 215-217
rounds down to 27021597764222972, so a wallet of that balance (a double), one
below the exact total, passes the test of line 219 and `checkout` succeeds. -/
theorem checkout_accepts_short_wallet :
    Number.round exShortUser.walletMoney = exShortUser.walletMoney
    ∧ Number.round exMainframe.cost = exMainframe.cost
    ∧ ¬ CheckoutRejects exDefaultAddress noFaults exMainframeStore exShortUser := by
  refine ⟨by decide, by decide, ?_⟩
  intro h
  have hok : (checkout exDefaultAddress noFaults exMainframeStore exShortUser).result
      = .ok () := rfl
  obtain ⟨e, he, -⟩ := h.2 exMainframeCart (by decide) (Or.inr (Or.inr (by decide)))
  rw [hok] at he
  exact absurd he (by simp)

/-- C2, amended: when the read of the cart goes through, `checkout` fails with
NotFound if the user has no cart, and otherwise with BadRequest if the item
list is empty, or no non-default address is set, or the wallet balance is less
than the total cost, the amounts of the items being safe integers (the
magnitudes of cost times quantity add up to at most `MAX_SAFE_INTEGER`); in
each of these failures the store (so the persisted wallet and cart) and the
in-memory user are unchanged. -/
theorem checkout_failures_leave_state_unchanged (default_address : String) (flt : Faults)
    (st : Store) (user : User) (hread : flt.cartFindOne = none) :
    (storedCart st user.email = none →
      ∃ e, (checkout default_address flt st user).result = .error e
        ∧ e.kind = some ErrorKind.NotFound
        ∧ (checkout default_address flt st user).store = st
        ∧ (checkout default_address flt st user).user = user)
    ∧ (∀ cart, storedCart st user.email = some cart →
        (cart.cartItems = [] ∨ user.hasSetNonDefaultAddress default_address = false
          ∨ ((cart.cartItems.map
                (fun item => (item.product.cost * item.quantity).natAbs)).sum
              ≤ MAX_SAFE_INTEGER
            ∧ user.walletMoney
              < (cart.cartItems.map (fun item => item.product.cost * item.quantity)).sum)) →
        ∃ e, (checkout default_address flt st user).result = .error e
          ∧ e.kind = some ErrorKind.BadRequest
          ∧ (checkout default_address flt st user).store = st
          ∧ (checkout default_address flt st user).user = user) := by
  constructor
  · intro hnone
    refine ⟨.ApiError httpStatus.NOT_FOUND "User does not have a cart", ?_, by decide, ?_, ?_⟩ <;>
      simp only [checkout, Cart.findOne, hread, hnone]
  · intro cart hcart hfail
    rw [checkout_of_storedCart default_address flt st user cart hread hcart]
    by_cases h1 : cart.cartItems.length = 0
    · rw [if_pos h1]
      exact ⟨_, rfl, by decide, rfl, rfl⟩
    · by_cases h2 : user.hasSetNonDefaultAddress default_address = true
      · have h3 : user.walletMoney < totalCost cart.cartItems := by
          rcases hfail with h | h | ⟨hsafe, h⟩
          · exact absurd (by simp [h]) h1
          · rw [h2] at h; exact absurd h (by decide)
          · rw [totalCost_eq_sum_of_safe cart.cartItems hsafe]; exact h
        rw [if_neg h1, if_neg (by simp [h2]), if_pos h3]
        exact ⟨_, rfl, by decide, rfl, rfl⟩
      · simp only [Bool.not_eq_true] at h2
        rw [if_neg h1, if_pos (by simp [h2])]
        exact ⟨_, rfl, by decide, rfl, rfl⟩

/-- Example of the amended C2: with a wallet of 20 for a total of 25,
`checkout` fails with BadRequest and nothing changes. -/
theorem checkout_failures_leave_state_unchanged_witness :
    ∃ e, (checkout exDefaultAddress noFaults exStore { exUser with walletMoney := 20 }).result
          = .error e
      ∧ e.kind = some ErrorKind.BadRequest
      ∧ (checkout exDefaultAddress noFaults exStore { exUser with walletMoney := 20 }).store
          = exStore
      ∧ (checkout exDefaultAddress noFaults exStore { exUser with walletMoney := 20 }).user
          = { exUser with walletMoney := 20 } :=
  (checkout_failures_leave_state_unchanged exDefaultAddress noFaults exStore
    { exUser with walletMoney := 20 } rfl).2 exCart (by decide)
    (Or.inr (Or.inr ⟨by decide, by decide⟩))

/-- C3, refuted: with the user save going through and the cart save failing,
`checkout` fails although the persisted wallet balance went from 100 to 75. -/
theorem checkout_not_atomic :
    ¬ CheckoutAtomic exDefaultAddress exFaultOnCartSave exStore exUser := by
  have hres : (checkout exDefaultAddress exFaultOnCartSave exStore exUser).result
      = .error (.storeError "write failed") := rfl
  have hwallet :
      (storedUser (checkout exDefaultAddress exFaultOnCartSave exStore exUser).store
        exUser._id).map (fun u => u.walletMoney) = some 75 := by decide
  have hold : (storedUser exStore exUser._id).map (fun u => u.walletMoney) = some 100 := by
    decide
  rintro (⟨hok, _⟩ | ⟨_, hsame, _⟩)
  · rw [hres] at hok; exact absurd hok (by simp)
  · rw [hwallet, hold] at hsame; exact absurd hsame (by decide)

/-- C3, amended: `checkout` on a stored user either succeeds with the wallet
debit and the cart clearing both persisted, or fails with the store unchanged,
or, only when the user save goes through and the cart save fails, fails with
the persisted carts unchanged and the wallet debit persisted. -/
theorem checkout_two_writes (default_address : String) (flt : Faults) (st : Store)
    (user : User) (huser : storedUser st user._id = some user) :
    ((checkout default_address flt st user).result = .ok ()
      ∧ flt.userSave = none ∧ flt.cartSave = none
      ∧ ∃ cart, storedCart st user.email = some cart
        ∧ storedUser (checkout default_address flt st user).store user._id
            = some { user with walletMoney := Number.sub user.walletMoney (totalCost cart.cartItems) }
        ∧ storedCart (checkout default_address flt st user).store user.email
            = some { cart with cartItems := [] })
    ∨ ((∃ e, (checkout default_address flt st user).result = .error e)
      ∧ (checkout default_address flt st user).store = st)
    ∨ ((∃ e, (checkout default_address flt st user).result = .error e)
      ∧ flt.userSave = none ∧ flt.cartSave ≠ none
      ∧ (checkout default_address flt st user).store.carts = st.carts
      ∧ ∃ cart, storedCart st user.email = some cart
        ∧ storedUser (checkout default_address flt st user).store user._id
            = some { user with walletMoney := Number.sub user.walletMoney (totalCost cart.cartItems) }) := by
  cases hread : flt.cartFindOne with
  | some m =>
    refine Or.inr (Or.inl ⟨⟨.storeError m, ?_⟩, ?_⟩) <;> simp only [checkout, Cart.findOne, hread]
  | none =>
    cases hcart : storedCart st user.email with
    | none =>
      refine Or.inr (Or.inl
        ⟨⟨.ApiError httpStatus.NOT_FOUND "User does not have a cart", ?_⟩, ?_⟩) <;>
        simp only [checkout, Cart.findOne, hread, hcart]
    | some cart =>
      rw [checkout_of_storedCart default_address flt st user cart hread hcart]
      by_cases h1 : cart.cartItems.length = 0
      · rw [if_pos h1]; exact Or.inr (Or.inl ⟨⟨_, rfl⟩, rfl⟩)
      by_cases h2 : (!(user.hasSetNonDefaultAddress default_address)) = true
      · rw [if_neg h1, if_pos h2]; exact Or.inr (Or.inl ⟨⟨_, rfl⟩, rfl⟩)
      by_cases h3 : user.walletMoney < totalCost cart.cartItems
      · rw [if_neg h1, if_neg h2, if_pos h3]; exact Or.inr (Or.inl ⟨⟨_, rfl⟩, rfl⟩)
      rw [if_neg h1, if_neg h2, if_neg h3]
      have hu : storedUser
          { st with users := (replaceFirst (fun u => u._id == user._id)
            { user with walletMoney := Number.sub user.walletMoney (totalCost cart.cartItems) } st.users) }
          user._id
          = some { user with walletMoney := Number.sub user.walletMoney (totalCost cart.cartItems) } := by
        simp only [storedUser] at huser ⊢
        exact find?_replaceFirst _ _ st.users user huser (by simp)
      cases hus : flt.userSave with
      | some m =>
        rw [userSave_of_fault flt st _ m hus]
        exact Or.inr (Or.inl ⟨⟨_, rfl⟩, rfl⟩)
      | none =>
        cases hcs : flt.cartSave with
        | some m =>
          rw [userSave_of_none flt st _ hus]
          dsimp only
          rw [cartSave_of_fault flt _ _ m hcs]
          exact Or.inr (Or.inr ⟨⟨_, rfl⟩, rfl, by simp, rfl, cart, rfl, hu⟩)
        | none =>
          rw [userSave_of_none flt st _ hus]
          dsimp only
          rw [cartSave_of_none flt _ _ hcs]
          refine Or.inl ⟨rfl, rfl, rfl, cart, rfl, hu, ?_⟩
          have hmail : cart.email = user.email := storedCart_email hcart
          simp only [storedCart] at hcart ⊢
          rw [hmail]
          exact find?_replaceFirst _ _ st.carts cart hcart (by simp [hmail])

/-- Example of the amended C3: when only the cart save fails, `checkout` fails,
the carts are unchanged and the wallet of 75 is persisted. -/
theorem checkout_two_writes_witness :
    (∃ e, (checkout exDefaultAddress exFaultOnCartSave exStore exUser).result = .error e)
    ∧ (checkout exDefaultAddress exFaultOnCartSave exStore exUser).store.carts = exStore.carts
    ∧ storedUser (checkout exDefaultAddress exFaultOnCartSave exStore exUser).store exUser._id
        = some { exUser with walletMoney := 75 } := by
  rcases checkout_two_writes exDefaultAddress exFaultOnCartSave exStore exUser (by decide)
    with ⟨h, _⟩ | ⟨_, h⟩ | ⟨h1, _, _, h2, _⟩
  · exact absurd h (by simp [show (checkout exDefaultAddress exFaultOnCartSave exStore
      exUser).result = .error (.storeError "write failed") from rfl])
  · exact absurd h (by decide)
  · exact ⟨h1, h2, by decide⟩

/-! ## addProductToCart -/

theorem storedCart_replaceFirst (st : Store) (cart old : Cart)
    (h : storedCart st cart.email = some old) :
    storedCart { st with carts := (replaceFirst (fun c => c.email == cart.email) cart st.carts) }
      cart.email = some cart := by
  simp only [storedCart] at h ⊢
  exact find?_replaceFirst _ cart st.carts old h (by simp)

theorem storedCart_append (st : Store) (doc : Cart) (h : storedCart st doc.email = none) :
    storedCart { st with carts := st.carts ++ [doc] } doc.email = some doc := by
  simp only [storedCart] at h ⊢
  simp [List.find?_append, h]

/-- The `try` block of `addProductToCart` when the user has a cart. -/
theorem addProductToCart.tryBlock_of_cart (flt : Faults) (st : Store) (user : User)
    (productId : String) (quantity : Int) (userCart : Cart) (hread : flt.cartFindOne = none)
    (hcart : storedCart st user.email = some userCart) :
    addProductToCart.tryBlock flt st user productId quantity =
      if userCart.cartItems.any (fun item => item.product._id == productId) then
        (st, .error (.ApiError httpStatus.BAD_REQUEST
          "Product already in cart. Use the cart sidebar to update or remove product from cart"))
      else
        match Product.findById flt st productId with
        | .error e => (st, .error e)
        | .ok none =>
          (st, .error (.ApiError httpStatus.BAD_REQUEST "Product doesn't exist in database "))
        | .ok (some product) =>
          match Cart.save flt st
              { userCart with
                cartItems :=
                  userCart.cartItems ++ [{ product := product, quantity := quantity }] } with
          | .error e => (st, .error e)
          | .ok st2 =>
            (st2, .ok { userCart with
              cartItems :=
                userCart.cartItems ++ [{ product := product, quantity := quantity }] }) := by
  simp only [addProductToCart.tryBlock, Cart.findOne, hread, hcart]

/-- The `try` block of `addProductToCart` when the user has no cart and the
creation goes through. -/
theorem addProductToCart.tryBlock_of_created (flt : Faults) (st : Store) (user : User)
    (productId : String) (quantity : Int) (hread : flt.cartFindOne = none)
    (hcart : storedCart st user.email = none) (hcreate : flt.cartCreate = none) :
    addProductToCart.tryBlock flt st user productId quantity =
      match Product.findById flt
          { st with carts := st.carts ++ [{ email := user.email, cartItems := [] }] }
          productId with
      | .error e =>
        ({ st with carts := st.carts ++ [{ email := user.email, cartItems := [] }] }, .error e)
      | .ok none =>
        ({ st with carts := st.carts ++ [{ email := user.email, cartItems := [] }] },
          .error (.ApiError httpStatus.BAD_REQUEST "Product doesn't exist in database "))
      | .ok (some product) =>
        match Cart.save flt
            { st with carts := st.carts ++ [{ email := user.email, cartItems := [] }] }
            { email := user.email, cartItems := [{ product := product, quantity := quantity }] }
            with
        | .error e =>
          ({ st with carts := st.carts ++ [{ email := user.email, cartItems := [] }] }, .error e)
        | .ok st2 =>
          (st2, .ok { email := user.email,
                      cartItems := [{ product := product, quantity := quantity }] }) := by
  simp only [addProductToCart.tryBlock, Cart.findOne, hread, hcart, Cart.create, hcreate,
    List.any_nil, Bool.false_eq_true, if_false, List.nil_append]

/-- The `try` block of `addProductToCart` when the user has no cart and the
creation fails. -/
theorem addProductToCart.tryBlock_of_create_fault (flt : Faults) (st : Store) (user : User)
    (productId : String) (quantity : Int) (m : String) (hread : flt.cartFindOne = none)
    (hcart : storedCart st user.email = none) (hcreate : flt.cartCreate = some m) :
    addProductToCart.tryBlock flt st user productId quantity =
      (st, .error (.ApiError httpStatus.INTERNAL_SERVER_ERROR
        "Something went wrong while creating cart")) := by
  simp only [addProductToCart.tryBlock, Cart.findOne, hread, hcart, Cart.create, hcreate]

/-- The `try` block of `addProductToCart` when the read of the cart fails. -/
theorem addProductToCart.tryBlock_of_read_fault (flt : Faults) (st : Store) (user : User)
    (productId : String) (quantity : Int) (m : String) (hread : flt.cartFindOne = some m) :
    addProductToCart.tryBlock flt st user productId quantity = (st, .error (.storeError m)) := by
  simp only [addProductToCart.tryBlock, Cart.findOne, hread]

theorem any_eq_false_of_not_in_cart (items : List CartItem) (productId : String)
    (h : ∀ item ∈ items, item.product._id ≠ productId) :
    items.any (fun item => item.product._id == productId) = false := by
  simp only [List.any_eq_false, beq_iff_eq]
  exact h

theorem filter_eq_nil_of_not_in_cart (items : List CartItem) (productId : String)
    (h : ∀ item ∈ items, item.product._id ≠ productId) :
    items.filter (fun item => item.product._id == productId) = [] := by
  simp only [List.filter_eq_nil_iff, beq_iff_eq]
  exact h

/-- C4: when the store does not fail, for every user (with or without a cart),
every product `P` of the product store that no item of the user's cart
references and every quantity `q`, `addProductToCart` succeeds, a following
`getCartByUser` returns the same cart, its item list is the previous item list
(empty for a lazily created cart) followed by the item embedding `P` with
quantity `q`, and that item is the only one referencing `P`. -/
theorem addProductToCart_then_getCartByUser (st : Store) (user : User) (P : Product) (q : Int)
    (hP : storedProduct st P._id = some P)
    (hnew : ∀ cart, storedCart st user.email = some cart →
      ∀ item ∈ cart.cartItems, item.product._id ≠ P._id) :
    ∃ cart, (addProductToCart noFaults st user P._id q).2 = .ok cart
      ∧ getCartByUser noFaults (addProductToCart noFaults st user P._id q).1 user = .ok cart
      ∧ cart.cartItems
          = ((storedCart st user.email).map (fun c => c.cartItems)).getD []
            ++ [{ product := P, quantity := q }]
      ∧ cart.cartItems.filter (fun item => item.product._id == P._id)
          = [{ product := P, quantity := q }] := by
  cases hcart : storedCart st user.email with
  | some userCart =>
    have hmail : userCart.email = user.email := storedCart_email hcart
    have hany := any_eq_false_of_not_in_cart userCart.cartItems P._id (hnew userCart hcart)
    have hfil := filter_eq_nil_of_not_in_cart userCart.cartItems P._id (hnew userCart hcart)
    have hst := storedCart_replaceFirst st
      { userCart with cartItems := userCart.cartItems ++ [{ product := P, quantity := q }] }
      userCart (by rw [hmail]; exact hcart)
    have hrun : addProductToCart noFaults st user P._id q
        = ({ st with carts := (replaceFirst (fun c => c.email == userCart.email)
              { userCart with
                cartItems := userCart.cartItems ++ [{ product := P, quantity := q }] }
              st.carts) },
           .ok { userCart with
              cartItems := userCart.cartItems ++ [{ product := P, quantity := q }] }) := by
      unfold addProductToCart
      rw [addProductToCart.tryBlock_of_cart noFaults st user P._id q userCart rfl hcart, hany]
      simp only [Product.findById, noFaults, hP, Cart.save, Bool.false_eq_true, if_false]
    rw [hrun]
    refine ⟨{ userCart with
      cartItems := userCart.cartItems ++ [{ product := P, quantity := q }] }, rfl, ?_, ?_, ?_⟩
    · simp only [hmail] at hst
      simp only [getCartByUser, Cart.findOne, noFaults, hmail, hst]
    · simp
    · simp [List.filter_append, hfil]
  | none =>
    have hP1 : storedProduct
        { st with carts := st.carts ++ [{ email := user.email, cartItems := [] }] } P._id
        = some P := hP
    have hst0 := storedCart_append st { email := user.email, cartItems := [] } hcart
    have hst := storedCart_replaceFirst
      { st with carts := st.carts ++ [{ email := user.email, cartItems := [] }] }
      { email := user.email, cartItems := [{ product := P, quantity := q }] }
      { email := user.email, cartItems := [] } hst0
    have hrun : addProductToCart noFaults st user P._id q
        = ({ st with carts := (replaceFirst (fun c => c.email == user.email)
              { email := user.email, cartItems := [{ product := P, quantity := q }] }
              (st.carts ++ [{ email := user.email, cartItems := [] }])) },
           .ok { email := user.email, cartItems := [{ product := P, quantity := q }] }) := by
      unfold addProductToCart
      rw [addProductToCart.tryBlock_of_created noFaults st user P._id q rfl hcart rfl]
      simp only [Product.findById, noFaults, hP1, Cart.save]
    rw [hrun]
    refine ⟨{ email := user.email, cartItems := [{ product := P, quantity := q }] },
      rfl, ?_, ?_, ?_⟩
    · simp only at hst
      simp only [getCartByUser, Cart.findOne, noFaults, hst]
    · simp
    · simp

/-- Example of C4: adding a third product with quantity 4 to the example cart. -/
theorem addProductToCart_then_getCartByUser_witness :
    ∃ cart, (addProductToCart noFaults exStore exUser exProductC._id 4).2 = .ok cart
      ∧ getCartByUser noFaults (addProductToCart noFaults exStore exUser exProductC._id 4).1
          exUser = .ok cart
      ∧ cart.cartItems
          = ((storedCart exStore exUser.email).map (fun c => c.cartItems)).getD []
            ++ [{ product := exProductC, quantity := 4 }]
      ∧ cart.cartItems.filter (fun item => item.product._id == exProductC._id)
          = [{ product := exProductC, quantity := 4 }] :=
  addProductToCart_then_getCartByUser exStore exUser exProductC 4 (by decide) (by decide)

/-- C5: when the read of the cart goes through and the user's cart already has
an item referencing the product id, `addProductToCart` fails with BadRequest
(whatever the product store holds and whatever the quantity) and the store, so
the persisted cart with its quantities, is unchanged. -/
theorem addProductToCart_already_in_cart (flt : Faults) (st : Store) (user : User)
    (productId : String) (q : Int) (userCart : Cart) (hread : flt.cartFindOne = none)
    (hcart : storedCart st user.email = some userCart)
    (hin : ∃ item ∈ userCart.cartItems, item.product._id = productId) :
    ∃ e, (addProductToCart flt st user productId q).2 = .error e
      ∧ e.kind = some ErrorKind.BadRequest
      ∧ (addProductToCart flt st user productId q).1 = st
      ∧ storedCart (addProductToCart flt st user productId q).1 user.email = some userCart := by
  have hany : userCart.cartItems.any (fun item => item.product._id == productId) = true := by
    simp only [List.any_eq_true, beq_iff_eq]
    exact hin
  have hrun : addProductToCart flt st user productId q
      = (st, .error (.ApiError httpStatus.BAD_REQUEST
          "Product already in cart. Use the cart sidebar to update or remove product from cart"))
      := by
    simp only [addProductToCart, addProductToCart.tryBlock_of_cart flt st user productId q
      userCart hread hcart, hany, if_true]
    rfl
  rw [hrun]
  exact ⟨_, rfl, by decide, rfl, hcart⟩

/-- Example of C5: adding again the first product of the example cart. -/
theorem addProductToCart_already_in_cart_witness :
    ∃ e, (addProductToCart noFaults exStore exUser "p1" 7).2 = .error e
      ∧ e.kind = some ErrorKind.BadRequest
      ∧ (addProductToCart noFaults exStore exUser "p1" 7).1 = exStore
      ∧ storedCart (addProductToCart noFaults exStore exUser "p1" 7).1 exUser.email
          = some exCart :=
  addProductToCart_already_in_cart noFaults exStore exUser "p1" 7 exCart rfl (by decide)
    (by decide)

/-! ## updateProductInCart and deleteProductFromCart -/

/-- Unfolds `updateProductInCart` once the cart has been read. -/
theorem updateProductInCart_of_cart (flt : Faults) (st : Store) (user : User)
    (productId : String) (quantity : Int) (userCart : Cart) (hread : flt.cartFindOne = none)
    (hcart : storedCart st user.email = some userCart) :
    updateProductInCart flt st user productId quantity =
      match Product.findById flt st productId with
      | .error e => (st, .error e)
      | .ok none =>
        (st, .error (.ApiError httpStatus.BAD_REQUEST "Product doesn't exist in database"))
      | .ok (some _) =>
        match userCart.cartItems.findIdx? (fun item => item.product._id == productId) with
        | none => (st, .error (.ApiError httpStatus.BAD_REQUEST "Product not in cart"))
        | some itemIndex =>
          match Cart.save flt st
              { userCart with
                cartItems :=
                  userCart.cartItems.modify (fun item => { item with quantity := quantity })
                    itemIndex } with
          | .error e => (st, .error e)
          | .ok st1 =>
            (st1, .ok { userCart with
              cartItems :=
                userCart.cartItems.modify (fun item => { item with quantity := quantity })
                  itemIndex }) := by
  simp only [updateProductInCart, Cart.findOne, hread, hcart]

/-- Unfolds `deleteProductFromCart` once the cart has been read. -/
theorem deleteProductFromCart_of_cart (flt : Faults) (st : Store) (user : User)
    (productId : String) (cart : Cart) (hread : flt.cartFindOne = none)
    (hcart : storedCart st user.email = some cart) :
    deleteProductFromCart flt st user productId =
      match cart.cartItems.findIdx? (fun item => item.product._id == productId) with
      | none => (st, .error (.ApiError httpStatus.BAD_REQUEST "Product not in cart"))
      | some itemIndex =>
        match Cart.save flt st { cart with cartItems := cart.cartItems.eraseIdx itemIndex } with
        | .error e => (st, .error e)
        | .ok st1 => (st1, .ok { cart with cartItems := cart.cartItems.eraseIdx itemIndex }) := by
  simp only [deleteProductFromCart, Cart.findOne, hread, hcart]

theorem findIdx?_eq_none_of_not_in_cart (items : List CartItem) (productId : String)
    (h : ∀ item ∈ items, item.product._id ≠ productId) :
    items.findIdx? (fun item => item.product._id == productId) = none := by
  rw [List.findIdx?_eq_none_iff]
  intro x hx
  simpa using h x hx

theorem findIdx?_isSome_of_in_cart (items : List CartItem) (productId : String)
    (h : ∃ item ∈ items, item.product._id = productId) :
    ∃ i, items.findIdx? (fun item => item.product._id == productId) = some i := by
  cases hidx : items.findIdx? (fun item => item.product._id == productId) with
  | some i => exact ⟨i, rfl⟩
  | none =>
    rw [List.findIdx?_eq_none_iff] at hidx
    obtain ⟨item, hmem, hid⟩ := h
    have := hidx item hmem
    simp [hid] at this

/-- C6: when the store does not fail, for a user with a cart, a product `P` of
the product store and a quantity `q`: if no item of the cart references `P`,
`updateProductInCart` fails with BadRequest and the store is unchanged; if an
item references `P`, it succeeds, the returned cart is the persisted one, it
has as many items as before, the first item referencing `P` (at index `i`) has
quantity `q` and is otherwise unchanged, and every other position holds the item
it held before. -/
theorem updateProductInCart_sets_quantity (st : Store) (user : User) (P : Product) (q : Int)
    (userCart : Cart) (hcart : storedCart st user.email = some userCart)
    (hP : storedProduct st P._id = some P) :
    ((∀ item ∈ userCart.cartItems, item.product._id ≠ P._id) →
      ∃ e, (updateProductInCart noFaults st user P._id q).2 = .error e
        ∧ e.kind = some ErrorKind.BadRequest
        ∧ (updateProductInCart noFaults st user P._id q).1 = st)
    ∧ ((∃ item ∈ userCart.cartItems, item.product._id = P._id) →
      ∃ (cart : Cart) (i : Nat) (old : CartItem), (updateProductInCart noFaults st user P._id q).2 = .ok cart
        ∧ storedCart (updateProductInCart noFaults st user P._id q).1 user.email = some cart
        ∧ cart.cartItems.length = userCart.cartItems.length
        ∧ userCart.cartItems[i]? = some old
        ∧ old.product._id = P._id
        ∧ cart.cartItems[i]? = some { old with quantity := q }
        ∧ (∀ (j : Nat) (item : CartItem), j < i → userCart.cartItems[j]? = some item →
            item.product._id ≠ P._id)
        ∧ (∀ j, j ≠ i → cart.cartItems[j]? = userCart.cartItems[j]?)) := by
  have hrun := updateProductInCart_of_cart noFaults st user P._id q userCart rfl hcart
  have hfind : Product.findById noFaults st P._id = .ok (some P) := by
    simp only [Product.findById, noFaults, hP]
  rw [hfind] at hrun
  have hmail : userCart.email = user.email := storedCart_email hcart
  constructor
  · intro hnot
    rw [hrun, findIdx?_eq_none_of_not_in_cart _ _ hnot]
    exact ⟨_, rfl, by decide, rfl⟩
  · intro hin
    obtain ⟨i, hi⟩ := findIdx?_isSome_of_in_cart _ _ hin
    obtain ⟨hlt, hpi, hbefore⟩ := List.findIdx?_eq_some_iff_getElem.mp hi
    rw [hrun, hi]
    have hst := storedCart_replaceFirst st
      { userCart with
        cartItems := userCart.cartItems.modify (fun item => { item with quantity := q }) i }
      userCart (by rw [hmail]; exact hcart)
    simp only [hmail] at hst
    refine ⟨_, i, userCart.cartItems[i], rfl, ?_, ?_, ?_, ?_, ?_, ?_, ?_⟩
    · simp only [Cart.save, noFaults, hmail, hst]
    · simp
    · simp [hlt]
    · simpa using hpi
    · simp [List.getElem?_modify_eq, hlt]
    · intro j item hj hitem
      have hjl : j < userCart.cartItems.length := Nat.lt_trans hj hlt
      have := hbefore j hj
      rw [List.getElem?_eq_getElem hjl] at hitem
      cases hitem
      simpa using this
    · intro j hj
      simp [List.getElem?_modify_ne _ _ (Ne.symm hj)]

/-- Example of C6: setting the quantity of the second product of the example
cart to 9. -/
theorem updateProductInCart_sets_quantity_witness :
    ∃ (cart : Cart) (i : Nat) (old : CartItem), (updateProductInCart noFaults exStore exUser exProductB._id 9).2 = .ok cart
      ∧ storedCart (updateProductInCart noFaults exStore exUser exProductB._id 9).1
          exUser.email = some cart
      ∧ cart.cartItems.length = exCart.cartItems.length
      ∧ exCart.cartItems[i]? = some old
      ∧ old.product._id = exProductB._id
      ∧ cart.cartItems[i]? = some { old with quantity := 9 }
      ∧ (∀ (j : Nat) (item : CartItem), j < i → exCart.cartItems[j]? = some item →
          item.product._id ≠ exProductB._id)
      ∧ (∀ j, j ≠ i → cart.cartItems[j]? = exCart.cartItems[j]?) :=
  (updateProductInCart_sets_quantity exStore exUser exProductB 9 exCart (by decide)
    (by decide)).2 ⟨{ product := exProductB, quantity := 1 }, by decide, rfl⟩

theorem not_in_cart_of_nodup_middle (before after : List CartItem) (item : CartItem)
    (h : ((before ++ item :: after).map (fun it => it.product._id)).Nodup) :
    ∀ it ∈ before ++ after, it.product._id ≠ item.product._id := by
  rw [List.map_append, List.map_cons, List.nodup_middle, List.nodup_cons,
    ← List.map_append] at h
  intro it hit heq
  apply h.1
  rw [← heq]
  exact List.mem_map_of_mem (fun it => it.product._id) hit

/-- C7: when the store does not fail, for a user whose cart holds at most one
item per product id and has an item referencing the product id,
`deleteProductFromCart` succeeds, the returned cart is the persisted one, and
its item list is the old list with that one item taken out (one item fewer,
the items before and after it in their order); a second
`deleteProductFromCart` for the same product id then fails with BadRequest and
leaves the store unchanged. -/
theorem deleteProductFromCart_removes_one_item (st : Store) (user : User) (productId : String)
    (cart : Cart) (hcart : storedCart st user.email = some cart) (hinv : CartInvariant cart)
    (hin : ∃ item ∈ cart.cartItems, item.product._id = productId) :
    ∃ (cart1 : Cart) (before after : List CartItem) (item : CartItem),
      (deleteProductFromCart noFaults st user productId).2 = .ok cart1
      ∧ storedCart (deleteProductFromCart noFaults st user productId).1 user.email = some cart1
      ∧ cart.cartItems = before ++ item :: after
      ∧ item.product._id = productId
      ∧ cart1.cartItems = before ++ after
      ∧ cart1.cartItems.length + 1 = cart.cartItems.length
      ∧ ∃ e,
          (deleteProductFromCart noFaults (deleteProductFromCart noFaults st user productId).1
            user productId).2 = .error e
          ∧ e.kind = some ErrorKind.BadRequest
          ∧ (deleteProductFromCart noFaults (deleteProductFromCart noFaults st user productId).1
              user productId).1 = (deleteProductFromCart noFaults st user productId).1 := by
  obtain ⟨i, hi⟩ := findIdx?_isSome_of_in_cart _ _ hin
  obtain ⟨hlt, hpi, -⟩ := List.findIdx?_eq_some_iff_getElem.mp hi
  have hmail : cart.email = user.email := storedCart_email hcart
  have hsplit : cart.cartItems
      = cart.cartItems.take i ++ cart.cartItems[i] :: cart.cartItems.drop (i + 1) := by
    rw [← List.drop_eq_getElem_cons hlt, List.take_append_drop]
  have herase : cart.cartItems.eraseIdx i
      = cart.cartItems.take i ++ cart.cartItems.drop (i + 1) :=
    List.eraseIdx_eq_take_drop_succ _ _
  have hid : cart.cartItems[i].product._id = productId := by simpa using hpi
  have hgone : ∀ it ∈ cart.cartItems.eraseIdx i, it.product._id ≠ productId := by
    rw [herase, ← hid]
    apply not_in_cart_of_nodup_middle
    rw [← hsplit]
    exact hinv
  have hst := storedCart_replaceFirst st
    { cart with cartItems := cart.cartItems.eraseIdx i } cart (by rw [hmail]; exact hcart)
  simp only [hmail] at hst
  have hrun : deleteProductFromCart noFaults st user productId
      = ({ st with carts := (replaceFirst (fun c => c.email == user.email)
            { email := user.email, cartItems := cart.cartItems.eraseIdx i } st.carts) },
         .ok { email := user.email, cartItems := cart.cartItems.eraseIdx i }) := by
    rw [deleteProductFromCart_of_cart noFaults st user productId cart rfl hcart, hi]
    simp only [Cart.save, noFaults, hmail]
  have hrun2 := deleteProductFromCart_of_cart noFaults _ user productId _ rfl hst
  rw [findIdx?_eq_none_of_not_in_cart _ _ hgone] at hrun2
  rw [hrun]
  refine ⟨_, cart.cartItems.take i, cart.cartItems.drop (i + 1), cart.cartItems[i], rfl, hst,
    hsplit, hid, herase, ?_, ?_⟩
  · simp only [List.length_eraseIdx, hlt, if_true]
    omega
  · rw [hrun2]
    exact ⟨_, rfl, by decide, rfl⟩

/-- Example of C7: deleting the first product of the example cart, twice. -/
theorem deleteProductFromCart_removes_one_item_witness :
    ∃ (cart1 : Cart) (before after : List CartItem) (item : CartItem),
      (deleteProductFromCart noFaults exStore exUser "p1").2 = .ok cart1
      ∧ storedCart (deleteProductFromCart noFaults exStore exUser "p1").1 exUser.email
          = some cart1
      ∧ exCart.cartItems = before ++ item :: after
      ∧ item.product._id = "p1"
      ∧ cart1.cartItems = before ++ after
      ∧ cart1.cartItems.length + 1 = exCart.cartItems.length
      ∧ ∃ e,
          (deleteProductFromCart noFaults (deleteProductFromCart noFaults exStore exUser "p1").1
            exUser "p1").2 = .error e
          ∧ e.kind = some ErrorKind.BadRequest
          ∧ (deleteProductFromCart noFaults (deleteProductFromCart noFaults exStore exUser "p1").1
              exUser "p1").1 = (deleteProductFromCart noFaults exStore exUser "p1").1 :=
  deleteProductFromCart_removes_one_item exStore exUser "p1" exCart (by decide)
    (by unfold CartInvariant; decide)
    ⟨{ product := exProductA, quantity := 2 }, by decide, rfl⟩

/-! ## Auth verifier -/

/-- C9: `jwtVerify` reports an error (and no user) when the payload type is not
the access type, whatever the expiry; otherwise an error when `now` exceeds
`payload.exp` (so `exp = now` is accepted); otherwise the user found for
`payload.sub`, or no error and no user when there is none, or the error of a
failed lookup. -/
theorem jwtVerify_outcome (ACCESS : String) (now : Int) (flt : Faults) (st : Store)
    (payload : Payload) :
    (payload.type ≠ ACCESS →
      jwtVerify ACCESS now flt st payload = ⟨some "Invalid token type", none⟩)
    ∧ (payload.type = ACCESS → payload.exp < now →
      jwtVerify ACCESS now flt st payload = ⟨some "token expired please login", none⟩)
    ∧ (payload.type = ACCESS → now ≤ payload.exp →
      (∀ user, flt.userFindById = none → storedUser st payload.sub = some user →
        jwtVerify ACCESS now flt st payload = ⟨none, some user⟩)
      ∧ (flt.userFindById = none → storedUser st payload.sub = none →
        jwtVerify ACCESS now flt st payload = ⟨none, none⟩)
      ∧ (∀ m, flt.userFindById = some m →
        jwtVerify ACCESS now flt st payload = ⟨some m, none⟩)) := by
  refine ⟨?_, ?_, ?_⟩
  · intro h
    simp [jwtVerify, h]
  · intro h hexp
    simp [jwtVerify, h, hexp]
  · intro h hexp
    have hnot : ¬ now > payload.exp := by omega
    refine ⟨?_, ?_, ?_⟩
    · intro user hf hu
      simp [jwtVerify, h, hnot, getUserById, User.findById, hf, hu]
    · intro hf hu
      simp [jwtVerify, h, hnot, getUserById, User.findById, hf, hu]
    · intro m hf
      simp [jwtVerify, h, hnot, getUserById, User.findById, hf, Thrown.message]

/-- Example of C9: an access payload whose expiry equals the current second is
accepted and resolved to the stored user. -/
theorem jwtVerify_outcome_witness :
    jwtVerify "access" 1700000000 noFaults exStore
      { sub := "u1", type := "access", exp := 1700000000 } = ⟨none, some exUser⟩ :=
  ((jwtVerify_outcome "access" 1700000000 noFaults exStore
    { sub := "u1", type := "access", exp := 1700000000 }).2.2 rfl (by decide)).1 exUser rfl
    (by decide)

/-! ## The cart invariant -/

theorem addProductToCart_fst (flt : Faults) (st : Store) (user : User) (productId : String)
    (quantity : Int) :
    (addProductToCart flt st user productId quantity).1
      = (addProductToCart.tryBlock flt st user productId quantity).1 := by
  unfold addProductToCart
  split <;> rename_i h <;> rw [h]

theorem storedProduct_id {st : Store} {productId : String} {product : Product}
    (h : storedProduct st productId = some product) : product._id = productId := by
  have := List.find?_some h
  simpa using this

/-- The persisted cart of the user after `addProductToCart`, whatever the store
does: the one before, or the lazily created empty cart, or the cart before (the
empty one when there was none) followed by an item for a product with the
requested id that it did not reference. -/
theorem addProductToCart_storedCart (flt : Faults) (st : Store) (user : User)
    (productId : String) (quantity : Int) :
    storedCart (addProductToCart flt st user productId quantity).1 user.email
        = storedCart st user.email
    ∨ (storedCart st user.email = none
        ∧ storedCart (addProductToCart flt st user productId quantity).1 user.email
          = some { email := user.email, cartItems := [] })
    ∨ ∃ (items : List CartItem) (product : Product),
        ((storedCart st user.email).map (fun c => c.cartItems)).getD [] = items
        ∧ (∀ item ∈ items, item.product._id ≠ productId)
        ∧ product._id = productId
        ∧ storedCart (addProductToCart flt st user productId quantity).1 user.email
          = some { email := user.email,
                   cartItems := items ++ [{ product := product, quantity := quantity }] } := by
  rw [addProductToCart_fst]
  cases hread : flt.cartFindOne with
  | some m =>
    rw [addProductToCart.tryBlock_of_read_fault flt st user productId quantity m hread]
    exact Or.inl rfl
  | none =>
    cases hcart : storedCart st user.email with
    | some userCart =>
      have hmail : userCart.email = user.email := storedCart_email hcart
      rw [addProductToCart.tryBlock_of_cart flt st user productId quantity userCart hread hcart]
      by_cases hany : userCart.cartItems.any (fun item => item.product._id == productId) = true
      · rw [if_pos hany]; exact Or.inl hcart
      rw [if_neg hany]
      cases hpf : flt.productFindById with
      | some m => simp only [Product.findById, hpf]; exact Or.inl hcart
      | none =>
        cases hprod : storedProduct st productId with
        | none => simp only [Product.findById, hpf, hprod]; exact Or.inl hcart
        | some product =>
          cases hsave : flt.cartSave with
          | some m => simp only [Product.findById, hpf, hprod, Cart.save, hsave]; exact Or.inl hcart
          | none =>
            simp only [Product.findById, hpf, hprod, Cart.save, hsave]
            refine Or.inr (Or.inr ⟨userCart.cartItems, product, rfl, ?_, storedProduct_id hprod, ?_⟩)
            · intro item hitem heq
              apply hany
              simp only [List.any_eq_true, beq_iff_eq]
              exact ⟨item, hitem, heq⟩
            · have hst := storedCart_replaceFirst st
                { userCart with
                  cartItems :=
                    userCart.cartItems ++ [{ product := product, quantity := quantity }] }
                userCart (by rw [hmail]; exact hcart)
              simp only [hmail] at hst
              simp only [hmail, hst]
    | none =>
      cases hcreate : flt.cartCreate with
      | some m =>
        rw [addProductToCart.tryBlock_of_create_fault flt st user productId quantity m hread hcart
          hcreate]
        exact Or.inl hcart
      | none =>
        rw [addProductToCart.tryBlock_of_created flt st user productId quantity hread hcart
          hcreate]
        have hst0 := storedCart_append st { email := user.email, cartItems := [] } hcart
        cases hpf : flt.productFindById with
        | some m => simp only [Product.findById, hpf]; exact Or.inr (Or.inl ⟨trivial, hst0⟩)
        | none =>
          cases hprod : storedProduct
              { st with carts := st.carts ++ [{ email := user.email, cartItems := [] }] }
              productId with
          | none => simp only [Product.findById, hpf, hprod]; exact Or.inr (Or.inl ⟨trivial, hst0⟩)
          | some product =>
            cases hsave : flt.cartSave with
            | some m =>
              simp only [Product.findById, hpf, hprod, Cart.save, hsave]
              exact Or.inr (Or.inl ⟨trivial, hst0⟩)
            | none =>
              simp only [Product.findById, hpf, hprod, Cart.save, hsave]
              refine Or.inr (Or.inr ⟨[], product, rfl, ?_, storedProduct_id hprod, ?_⟩)
              · intro item hitem; simp at hitem
              · exact storedCart_replaceFirst
                  { st with carts := st.carts ++ [{ email := user.email, cartItems := [] }] }
                  { email := user.email,
                    cartItems := [{ product := product, quantity := quantity }] }
                  { email := user.email, cartItems := [] } hst0

/-- The persisted cart of the user after `updateProductInCart`, whatever the
store does: the one before, or the one before with one quantity overwritten. -/
theorem updateProductInCart_storedCart (flt : Faults) (st : Store) (user : User)
    (productId : String) (quantity : Int) :
    storedCart (updateProductInCart flt st user productId quantity).1 user.email
        = storedCart st user.email
    ∨ ∃ (userCart : Cart) (i : Nat), storedCart st user.email = some userCart
        ∧ storedCart (updateProductInCart flt st user productId quantity).1 user.email
          = some { email := user.email,
                   cartItems :=
                     userCart.cartItems.modify (fun item => { item with quantity := quantity })
                       i } := by
  cases hread : flt.cartFindOne with
  | some m => left; simp only [updateProductInCart, Cart.findOne, hread]
  | none =>
    cases hcart : storedCart st user.email with
    | none => left; simp only [updateProductInCart, Cart.findOne, hread, hcart]
    | some userCart =>
      have hmail : userCart.email = user.email := storedCart_email hcart
      rw [updateProductInCart_of_cart flt st user productId quantity userCart hread hcart]
      cases hpf : Product.findById flt st productId with
      | error e => exact Or.inl hcart
      | ok found =>
        cases found with
        | none => exact Or.inl hcart
        | some product =>
          cases hidx : userCart.cartItems.findIdx? (fun item => item.product._id == productId)
            with
          | none => exact Or.inl hcart
          | some i =>
            cases hsave : flt.cartSave with
            | some m =>
              left
              simp only [Cart.save, hsave]
              exact hcart
            | none =>
              right
              have hst := storedCart_replaceFirst st
                { userCart with
                  cartItems :=
                    userCart.cartItems.modify (fun item => { item with quantity := quantity })
                      i }
                userCart (by rw [hmail]; exact hcart)
              simp only [hmail] at hst
              simp only [Cart.save, hsave, hmail, hst]
              exact ⟨userCart, i, rfl, rfl⟩

/-- The persisted cart of the user after `deleteProductFromCart`, whatever the
store does: the one before, or the one before with one item taken out. -/
theorem deleteProductFromCart_storedCart (flt : Faults) (st : Store) (user : User)
    (productId : String) :
    storedCart (deleteProductFromCart flt st user productId).1 user.email
        = storedCart st user.email
    ∨ ∃ (cart : Cart) (i : Nat), storedCart st user.email = some cart
        ∧ storedCart (deleteProductFromCart flt st user productId).1 user.email
          = some { email := user.email, cartItems := cart.cartItems.eraseIdx i } := by
  cases hread : flt.cartFindOne with
  | some m => left; simp only [deleteProductFromCart, Cart.findOne, hread]
  | none =>
    cases hcart : storedCart st user.email with
    | none => left; simp only [deleteProductFromCart, Cart.findOne, hread, hcart]
    | some cart =>
      have hmail : cart.email = user.email := storedCart_email hcart
      rw [deleteProductFromCart_of_cart flt st user productId cart hread hcart]
      cases hidx : cart.cartItems.findIdx? (fun item => item.product._id == productId) with
      | none => exact Or.inl hcart
      | some i =>
        cases hsave : flt.cartSave with
        | some m =>
          left
          simp only [Cart.save, hsave]
          exact hcart
        | none =>
          right
          have hst := storedCart_replaceFirst st
            { cart with cartItems := cart.cartItems.eraseIdx i } cart
            (by rw [hmail]; exact hcart)
          simp only [hmail] at hst
          simp only [Cart.save, hsave, hmail, hst]
          exact ⟨cart, i, rfl, rfl⟩

/-- The persisted cart of the user after `checkout`, whatever the store does:
the one before, or the emptied one. -/
theorem checkout_storedCart (default_address : String) (flt : Faults) (st : Store)
    (user : User) :
    storedCart (checkout default_address flt st user).store user.email
        = storedCart st user.email
    ∨ storedCart (checkout default_address flt st user).store user.email
        = some { email := user.email, cartItems := [] } := by
  cases hread : flt.cartFindOne with
  | some m => left; simp only [checkout, Cart.findOne, hread]
  | none =>
    cases hcart : storedCart st user.email with
    | none => left; simp only [checkout, Cart.findOne, hread, hcart]
    | some cart =>
      have hmail : cart.email = user.email := storedCart_email hcart
      rw [checkout_of_storedCart default_address flt st user cart hread hcart]
      by_cases h1 : cart.cartItems.length = 0
      · rw [if_pos h1]; exact Or.inl hcart
      by_cases h2 : (!(user.hasSetNonDefaultAddress default_address)) = true
      · rw [if_neg h1, if_pos h2]; exact Or.inl hcart
      by_cases h3 : user.walletMoney < totalCost cart.cartItems
      · rw [if_neg h1, if_neg h2, if_pos h3]; exact Or.inl hcart
      rw [if_neg h1, if_neg h2, if_neg h3]
      cases hus : flt.userSave with
      | some m =>
        rw [userSave_of_fault flt st _ m hus]
        exact Or.inl hcart
      | none =>
        rw [userSave_of_none flt st _ hus]
        dsimp only
        cases hcs : flt.cartSave with
        | some m =>
          rw [cartSave_of_fault flt _ _ m hcs]
          exact Or.inl hcart
        | none =>
          rw [cartSave_of_none flt _ _ hcs]
          right
          have hst := storedCart_replaceFirst st { cart with cartItems := [] } cart
            (by rw [hmail]; exact hcart)
          simp only [hmail] at hst
          simp only [hmail]
          exact hst

theorem map_id_modify_quantity (quantity : Int) (items : List CartItem) (i : Nat) :
    (items.modify (fun item => { item with quantity := quantity }) i).map
        (fun item => item.product._id)
      = items.map (fun item => item.product._id) := by
  induction items generalizing i with
  | nil => simp
  | cons x xs ih =>
    cases i with
    | zero => simp
    | succ n => simp [ih]

/-- C8: the invariant "at most one item per distinct product id" holds of a
lazily created cart, and if it holds of the persisted cart of the user (if
any) then it holds of the persisted cart of the user after `addProductToCart`,
`updateProductInCart`, `deleteProductFromCart` and `checkout`, whether the
operation succeeds or fails and whatever store calls fail. -/
theorem cart_invariant_preserved (default_address : String) (flt : Faults) (st : Store)
    (user : User) (productId : String) (quantity : Int)
    (hinv : ∀ cart, storedCart st user.email = some cart → CartInvariant cart) :
    CartInvariant { email := user.email, cartItems := [] }
    ∧ (∀ cart, storedCart (addProductToCart flt st user productId quantity).1 user.email
          = some cart → CartInvariant cart)
    ∧ (∀ cart, storedCart (updateProductInCart flt st user productId quantity).1 user.email
          = some cart → CartInvariant cart)
    ∧ (∀ cart, storedCart (deleteProductFromCart flt st user productId).1 user.email
          = some cart → CartInvariant cart)
    ∧ (∀ cart, storedCart (checkout default_address flt st user).store user.email
          = some cart → CartInvariant cart) := by
  have hempty : CartInvariant { email := user.email, cartItems := [] } := by
    simp [CartInvariant]
  refine ⟨hempty, ?_, ?_, ?_, ?_⟩
  · intro cart hafter
    rcases addProductToCart_storedCart flt st user productId quantity with
      h | ⟨_, h⟩ | ⟨items, product, hitems, hnot, hid, h⟩
    · exact hinv cart (by rw [← h]; exact hafter)
    · rw [h] at hafter; cases hafter; exact hempty
    · rw [h] at hafter
      cases hafter
      have hnodup : (items.map (fun item => item.product._id)).Nodup := by
        cases hcart : storedCart st user.email with
        | none => rw [hcart] at hitems; simp at hitems; subst hitems; simp
        | some c =>
          rw [hcart] at hitems
          simp at hitems
          subst hitems
          exact hinv c hcart
      simp only [CartInvariant, List.map_append, List.map_cons, List.map_nil]
      rw [List.nodup_append]
      refine ⟨hnodup, List.nodup_singleton _, ?_⟩
      simp only [List.disjoint_singleton, List.mem_map, not_exists, not_and]
      intro item hitem heq
      exact hnot item hitem (by rw [heq, hid])
  · intro cart hafter
    rcases updateProductInCart_storedCart flt st user productId quantity with
      h | ⟨c, i, hc, h⟩
    · exact hinv cart (by rw [← h]; exact hafter)
    · rw [h] at hafter
      cases hafter
      simp only [CartInvariant, map_id_modify_quantity]
      exact hinv c hc
  · intro cart hafter
    rcases deleteProductFromCart_storedCart flt st user productId with h | ⟨c, i, hc, h⟩
    · exact hinv cart (by rw [← h]; exact hafter)
    · rw [h] at hafter
      cases hafter
      exact List.Nodup.sublist ((List.eraseIdx_sublist c.cartItems i).map _) (hinv c hc)
  · intro cart hafter
    rcases checkout_storedCart default_address flt st user with h | h
    · exact hinv cart (by rw [← h]; exact hafter)
    · rw [h] at hafter; cases hafter; exact hempty

/-- Example of C8: the example cart after adding a third product. -/
theorem cart_invariant_preserved_witness :
    CartInvariant
      { email := exUser.email,
        cartItems := exCart.cartItems ++ [{ product := exProductC, quantity := 4 }] } :=
  (cart_invariant_preserved exDefaultAddress noFaults exStore exUser "p3" 4
    (by
      intro cart h
      have hc : storedCart exStore exUser.email = some exCart := by decide
      rw [hc] at h
      cases h
      unfold CartInvariant
      decide)).2.1 _ (by decide)

/-! ## Error kinds -/

/-- What the `try` block of `addProductToCart` throws: a 400 or 500 `ApiError`
with a non-empty message, or a raw store error. -/
theorem addProductToCart.tryBlock_error_cases (flt : Faults) (st : Store) (user : User)
    (productId : String) (quantity : Int) (e : Thrown)
    (h : (addProductToCart.tryBlock flt st user productId quantity).2 = .error e) :
    (∃ msg, e = .ApiError httpStatus.BAD_REQUEST msg ∧ msg ≠ "")
    ∨ (∃ msg, e = .ApiError httpStatus.INTERNAL_SERVER_ERROR msg ∧ msg ≠ "")
    ∨ ∃ m, e = .storeError m := by
  cases hread : flt.cartFindOne with
  | some m =>
    rw [addProductToCart.tryBlock_of_read_fault flt st user productId quantity m hread] at h
    cases h
    exact Or.inr (Or.inr ⟨m, rfl⟩)
  | none =>
    cases hcart : storedCart st user.email with
    | some userCart =>
      rw [addProductToCart.tryBlock_of_cart flt st user productId quantity userCart hread hcart]
        at h
      by_cases hany : userCart.cartItems.any (fun item => item.product._id == productId) = true
      · rw [if_pos hany] at h
        cases h
        exact Or.inl ⟨_, rfl, by decide⟩
      rw [if_neg hany] at h
      cases hpf : flt.productFindById with
      | some m =>
        simp only [Product.findById, hpf] at h
        cases h
        exact Or.inr (Or.inr ⟨m, rfl⟩)
      | none =>
        cases hprod : storedProduct st productId with
        | none =>
          simp only [Product.findById, hpf, hprod] at h
          cases h
          exact Or.inl ⟨_, rfl, by decide⟩
        | some product =>
          cases hsave : flt.cartSave with
          | some m =>
            simp only [Product.findById, hpf, hprod, Cart.save, hsave] at h
            cases h
            exact Or.inr (Or.inr ⟨m, rfl⟩)
          | none =>
            simp only [Product.findById, hpf, hprod, Cart.save, hsave] at h
            cases h
    | none =>
      cases hcreate : flt.cartCreate with
      | some m =>
        rw [addProductToCart.tryBlock_of_create_fault flt st user productId quantity m hread hcart
          hcreate] at h
        cases h
        exact Or.inr (Or.inl ⟨_, rfl, by decide⟩)
      | none =>
        rw [addProductToCart.tryBlock_of_created flt st user productId quantity hread hcart
          hcreate] at h
        cases hpf : flt.productFindById with
        | some m =>
          simp only [Product.findById, hpf] at h
          cases h
          exact Or.inr (Or.inr ⟨m, rfl⟩)
        | none =>
          cases hprod : storedProduct
              { st with carts := st.carts ++ [{ email := user.email, cartItems := [] }] }
              productId with
          | none =>
            simp only [Product.findById, hpf, hprod] at h
            cases h
            exact Or.inl ⟨_, rfl, by decide⟩
          | some product =>
            cases hsave : flt.cartSave with
            | some m =>
              simp only [Product.findById, hpf, hprod, Cart.save, hsave] at h
              cases h
              exact Or.inr (Or.inr ⟨m, rfl⟩)
            | none =>
              simp only [Product.findById, hpf, hprod, Cart.save, hsave] at h
              cases h

theorem addProductToCart_snd_of_error (flt : Faults) (st : Store) (user : User)
    (productId : String) (quantity : Int) (e : Thrown)
    (h : (addProductToCart.tryBlock flt st user productId quantity).2 = .error e) :
    (addProductToCart flt st user productId quantity).2
      = .error (addProductToCart.catchBlock e) := by
  unfold addProductToCart
  split
  · rename_i st1 error heq
    rw [heq] at h
    cases h
    rfl
  · rename_i st1 userCart heq
    rw [heq] at h
    cases h

theorem addProductToCart_error_inv (flt : Faults) (st : Store) (user : User)
    (productId : String) (quantity : Int) (e : Thrown)
    (h : (addProductToCart flt st user productId quantity).2 = .error e) :
    ∃ e0, (addProductToCart.tryBlock flt st user productId quantity).2 = .error e0
      ∧ e = addProductToCart.catchBlock e0 := by
  unfold addProductToCart at h
  split at h
  · rename_i st1 error heq
    cases h
    exact ⟨error, by rw [heq], rfl⟩
  · cases h

theorem catchBlock_storeError_kind (m : String) :
    (addProductToCart.catchBlock (.storeError m)).kind = some ErrorKind.Internal := by
  simp [addProductToCart.catchBlock, Thrown.statusCode, Thrown.kind,
    httpStatus.INTERNAL_SERVER_ERROR, httpStatus.NOT_FOUND, httpStatus.BAD_REQUEST]

theorem catchBlock_ApiError (statusCode : Nat) (message : String) (hs : statusCode ≠ 0)
    (hm : message ≠ "") :
    addProductToCart.catchBlock (.ApiError statusCode message) = .ApiError statusCode message := by
  simp [addProductToCart.catchBlock, Thrown.statusCode, Thrown.message, hs, hm]

theorem getCartByUser_error_cases (flt : Faults) (st : Store) (user : User) (e : Thrown)
    (h : getCartByUser flt st user = .error e) :
    e.kind = some ErrorKind.NotFound ∨ ∃ m, flt.cartFindOne = some m ∧ e = .storeError m := by
  cases hread : flt.cartFindOne with
  | some m =>
    simp only [getCartByUser, Cart.findOne, hread] at h
    cases h
    exact Or.inr ⟨m, rfl, rfl⟩
  | none =>
    cases hcart : storedCart st user.email with
    | none =>
      simp only [getCartByUser, Cart.findOne, hread, hcart] at h
      cases h
      exact Or.inl (by decide)
    | some cart =>
      simp only [getCartByUser, Cart.findOne, hread, hcart] at h
      cases h

theorem updateProductInCart_error_cases (flt : Faults) (st : Store) (user : User)
    (productId : String) (quantity : Int) (e : Thrown)
    (h : (updateProductInCart flt st user productId quantity).2 = .error e) :
    e.kind = some ErrorKind.BadRequest
    ∨ ∃ m, e = .storeError m
        ∧ (flt.cartFindOne = some m ∨ flt.productFindById = some m ∨ flt.cartSave = some m) := by
  cases hread : flt.cartFindOne with
  | some m =>
    simp only [updateProductInCart, Cart.findOne, hread] at h
    cases h
    exact Or.inr ⟨m, rfl, Or.inl rfl⟩
  | none =>
    cases hcart : storedCart st user.email with
    | none =>
      simp only [updateProductInCart, Cart.findOne, hread, hcart] at h
      cases h
      exact Or.inl (by decide)
    | some userCart =>
      rw [updateProductInCart_of_cart flt st user productId quantity userCart hread hcart] at h
      cases hpf : flt.productFindById with
      | some m =>
        simp only [Product.findById, hpf] at h
        cases h
        exact Or.inr ⟨m, rfl, Or.inr (Or.inl rfl)⟩
      | none =>
        cases hprod : storedProduct st productId with
        | none =>
          simp only [Product.findById, hpf, hprod] at h
          cases h
          exact Or.inl (by decide)
        | some product =>
          cases hidx : userCart.cartItems.findIdx? (fun item => item.product._id == productId)
            with
          | none =>
            simp only [Product.findById, hpf, hprod, hidx] at h
            cases h
            exact Or.inl (by decide)
          | some i =>
            cases hsave : flt.cartSave with
            | some m =>
              simp only [Product.findById, hpf, hprod, hidx, Cart.save, hsave] at h
              cases h
              exact Or.inr ⟨m, rfl, Or.inr (Or.inr rfl)⟩
            | none =>
              simp only [Product.findById, hpf, hprod, hidx, Cart.save, hsave] at h
              cases h

theorem deleteProductFromCart_error_cases (flt : Faults) (st : Store) (user : User)
    (productId : String) (e : Thrown)
    (h : (deleteProductFromCart flt st user productId).2 = .error e) :
    e.kind = some ErrorKind.BadRequest
    ∨ ∃ m, e = .storeError m ∧ (flt.cartFindOne = some m ∨ flt.cartSave = some m) := by
  cases hread : flt.cartFindOne with
  | some m =>
    simp only [deleteProductFromCart, Cart.findOne, hread] at h
    cases h
    exact Or.inr ⟨m, rfl, Or.inl rfl⟩
  | none =>
    cases hcart : storedCart st user.email with
    | none =>
      simp only [deleteProductFromCart, Cart.findOne, hread, hcart] at h
      cases h
      exact Or.inl (by decide)
    | some cart =>
      rw [deleteProductFromCart_of_cart flt st user productId cart hread hcart] at h
      cases hidx : cart.cartItems.findIdx? (fun item => item.product._id == productId) with
      | none =>
        simp only [hidx] at h
        cases h
        exact Or.inl (by decide)
      | some i =>
        cases hsave : flt.cartSave with
        | some m =>
          simp only [hidx, Cart.save, hsave] at h
          cases h
          exact Or.inr ⟨m, rfl, Or.inr rfl⟩
        | none =>
          simp only [hidx, Cart.save, hsave] at h
          cases h

theorem checkout_error_cases (default_address : String) (flt : Faults) (st : Store)
    (user : User) (e : Thrown)
    (h : (checkout default_address flt st user).result = .error e) :
    e.kind = some ErrorKind.NotFound ∨ e.kind = some ErrorKind.BadRequest
    ∨ ∃ m, e = .storeError m
        ∧ (flt.cartFindOne = some m ∨ flt.userSave = some m ∨ flt.cartSave = some m) := by
  cases hread : flt.cartFindOne with
  | some m =>
    simp only [checkout, Cart.findOne, hread] at h
    cases h
    exact Or.inr (Or.inr ⟨m, rfl, Or.inl rfl⟩)
  | none =>
    cases hcart : storedCart st user.email with
    | none =>
      simp only [checkout, Cart.findOne, hread, hcart] at h
      cases h
      exact Or.inl (by decide)
    | some cart =>
      rw [checkout_of_storedCart default_address flt st user cart hread hcart] at h
      by_cases h1 : cart.cartItems.length = 0
      · rw [if_pos h1] at h; cases h; exact Or.inr (Or.inl (by decide))
      by_cases h2 : (!(user.hasSetNonDefaultAddress default_address)) = true
      · rw [if_neg h1, if_pos h2] at h; cases h; exact Or.inr (Or.inl (by decide))
      by_cases h3 : user.walletMoney < totalCost cart.cartItems
      · rw [if_neg h1, if_neg h2, if_pos h3] at h; cases h; exact Or.inr (Or.inl (by decide))
      rw [if_neg h1, if_neg h2, if_neg h3] at h
      cases hus : flt.userSave with
      | some m =>
        rw [userSave_of_fault flt st _ m hus] at h
        cases h
        exact Or.inr (Or.inr ⟨m, rfl, Or.inr (Or.inl rfl)⟩)
      | none =>
        rw [userSave_of_none flt st _ hus] at h
        dsimp only at h
        cases hcs : flt.cartSave with
        | some m =>
          rw [cartSave_of_fault flt _ _ m hcs] at h
          cases h
          exact Or.inr (Or.inr ⟨m, rfl, Or.inr (Or.inr rfl)⟩)
        | none =>
          rw [cartSave_of_none flt _ _ hcs] at h
          cases h

/-- C10, refuted: when the read of the cart fails, `getCartByUser` throws the
raw store error, which is of none of the kinds NotFound, BadRequest,
Internal. -/
theorem getCartByUser_raw_store_error :
    ¬ FailsWithKnownKind (getCartByUser exFaultOnRead exStore exUser) := by
  intro h
  have hrun : getCartByUser exFaultOnRead exStore exUser
      = .error (.storeError "connection lost") := rfl
  rcases h _ hrun with h | h | h <;> exact absurd h (by decide)

/-- C10, amended: every failure of `addProductToCart` is a BadRequest or an
Internal `ApiError`, and every store fault inside it (a raw error thrown in its
`try` block, in particular a failed read, or a failed creation of the cart)
yields Internal; every failure of `getCartByUser`, `updateProductInCart`,
`deleteProductFromCart` and `checkout` is a NotFound or BadRequest `ApiError`
or the raw error of the store call that failed, which has none of the three
kinds, and a failed read of the cart makes each of the four throw that raw
error. -/
theorem cart_service_failure_kinds (default_address : String) (flt : Faults) (st : Store)
    (user : User) (productId : String) (quantity : Int) :
    (∀ e, (addProductToCart flt st user productId quantity).2 = .error e →
      e.kind = some ErrorKind.BadRequest ∨ e.kind = some ErrorKind.Internal)
    ∧ (∀ m, (addProductToCart.tryBlock flt st user productId quantity).2
          = .error (.storeError m) →
        ∃ e, (addProductToCart flt st user productId quantity).2 = .error e
          ∧ e.kind = some ErrorKind.Internal)
    ∧ (∀ m, flt.cartFindOne = some m →
        ∃ e, (addProductToCart flt st user productId quantity).2 = .error e
          ∧ e.kind = some ErrorKind.Internal)
    ∧ (∀ m, flt.cartFindOne = none → storedCart st user.email = none →
        flt.cartCreate = some m →
        ∃ e, (addProductToCart flt st user productId quantity).2 = .error e
          ∧ e.kind = some ErrorKind.Internal)
    ∧ (∀ e, getCartByUser flt st user = .error e →
        e.kind = some ErrorKind.NotFound
        ∨ ∃ m, flt.cartFindOne = some m ∧ e = .storeError m)
    ∧ (∀ e, (updateProductInCart flt st user productId quantity).2 = .error e →
        e.kind = some ErrorKind.BadRequest
        ∨ ∃ m, e = .storeError m
            ∧ (flt.cartFindOne = some m ∨ flt.productFindById = some m
                ∨ flt.cartSave = some m))
    ∧ (∀ e, (deleteProductFromCart flt st user productId).2 = .error e →
        e.kind = some ErrorKind.BadRequest
        ∨ ∃ m, e = .storeError m ∧ (flt.cartFindOne = some m ∨ flt.cartSave = some m))
    ∧ (∀ e, (checkout default_address flt st user).result = .error e →
        e.kind = some ErrorKind.NotFound ∨ e.kind = some ErrorKind.BadRequest
        ∨ ∃ m, e = .storeError m
            ∧ (flt.cartFindOne = some m ∨ flt.userSave = some m ∨ flt.cartSave = some m))
    ∧ (∀ m, flt.cartFindOne = some m →
        getCartByUser flt st user = .error (.storeError m)
        ∧ (updateProductInCart flt st user productId quantity).2 = .error (.storeError m)
        ∧ (deleteProductFromCart flt st user productId).2 = .error (.storeError m)
        ∧ (checkout default_address flt st user).result = .error (.storeError m)
        ∧ (Thrown.storeError m).kind = none) := by
  refine ⟨?_, ?_, ?_, ?_, getCartByUser_error_cases flt st user,
    updateProductInCart_error_cases flt st user productId quantity,
    deleteProductFromCart_error_cases flt st user productId,
    checkout_error_cases default_address flt st user, ?_⟩
  · intro e h
    obtain ⟨e0, h0, rfl⟩ := addProductToCart_error_inv flt st user productId quantity e h
    rcases addProductToCart.tryBlock_error_cases flt st user productId quantity e0 h0 with
      ⟨msg, rfl, hmsg⟩ | ⟨msg, rfl, hmsg⟩ | ⟨m, rfl⟩
    · rw [catchBlock_ApiError _ _ (by decide) hmsg]; exact Or.inl rfl
    · rw [catchBlock_ApiError _ _ (by decide) hmsg]; exact Or.inr rfl
    · exact Or.inr (catchBlock_storeError_kind m)
  · intro m h
    exact ⟨_, addProductToCart_snd_of_error flt st user productId quantity _ h,
      catchBlock_storeError_kind m⟩
  · intro m hread
    refine ⟨_, addProductToCart_snd_of_error flt st user productId quantity (.storeError m) ?_,
      catchBlock_storeError_kind m⟩
    rw [addProductToCart.tryBlock_of_read_fault flt st user productId quantity m hread]
  · intro m hread hcart hcreate
    refine ⟨_, addProductToCart_snd_of_error flt st user productId quantity
      (.ApiError httpStatus.INTERNAL_SERVER_ERROR "Something went wrong while creating cart") ?_,
      ?_⟩
    · rw [addProductToCart.tryBlock_of_create_fault flt st user productId quantity m hread hcart
        hcreate]
    · rw [catchBlock_ApiError _ _ (by decide) (by decide)]; decide
  · intro m hread
    refine ⟨?_, ?_, ?_, ?_, rfl⟩
    · simp only [getCartByUser, Cart.findOne, hread]
    · simp only [updateProductInCart, Cart.findOne, hread]
    · simp only [deleteProductFromCart, Cart.findOne, hread]
    · simp only [checkout, Cart.findOne, hread]

/-- Example of the amended C10: a failed product lookup inside
`addProductToCart` is returned as Internal. -/
theorem cart_service_failure_kinds_witness :
    ∃ e, (addProductToCart exFaultOnProductLookup exStore exUser "p3" 4).2 = .error e
      ∧ e.kind = some ErrorKind.Internal :=
  (cart_service_failure_kinds exDefaultAddress exFaultOnProductLookup exStore exUser "p3"
    4).2.1 "timed out" rfl

end QKart
